import Mathlib

/-!
# The `okteto status` command (`cmd/status.go`)

A shallow embedding of `Status`, `runWithWatch` and `runWithoutWatch`.
Every call the Go code makes to a collaborator (cluster client, manifest
loader, syncthing session, Progress Source, logger, spinner, analytics,
`time.Sleep`) is recorded, in program order, as an `Event` of a trace; the
results of the collaborators are supplied by an `Env`.
-/

namespace Okteto

/-! ## float64 -/

/-- Go `float64`: an IEEE-754 binary64 value, given by its 64-bit pattern
(1 sign bit, 11 exponent bits, 52 fraction bits). -/
structure Float64 where
  bits : Fin (2 ^ 64)
deriving DecidableEq

namespace Float64

/-- The sign bit. -/
def sign (x : Float64) : Bool := decide (2 ^ 63 ≤ x.bits.val)

/-- The biased exponent field. -/
def expField (x : Float64) : Nat := x.bits.val / 2 ^ 52 % 2048

/-- The fraction field. -/
def fracField (x : Float64) : Nat := x.bits.val % 2 ^ 52

/-- Not-a-number: exponent field all ones, fraction non-zero. -/
def isNaN (x : Float64) : Bool := x.expField == 2047 && x.fracField != 0

/-- Plus or minus infinity. -/
def isInf (x : Float64) : Bool := x.expField == 2047 && x.fracField == 0

/-- Plus or minus zero. -/
def isZero (x : Float64) : Bool := x.expField == 0 && x.fracField == 0

/-- Go's `==` on `float64`: a NaN equals nothing, the two zeros are equal,
every other value equals only itself. -/
def eq (a b : Float64) : Bool :=
  !a.isNaN && !b.isNaN && (decide (a = b) || (a.isZero && b.isZero))

/-- The integer significand `M` of a finite value `|x| = M * 2 ^ (E - 1075)`. -/
def significand (x : Float64) : Nat :=
  if x.expField = 0 then x.fracField else 2 ^ 52 + x.fracField

/-- The exponent `E` of a finite value `|x| = M * 2 ^ (E - 1075)`. -/
def scale (x : Float64) : Nat :=
  if x.expField = 0 then 1 else x.expField

/-- The key that orders non-NaN values: the magnitude bits, negated under the sign bit. -/
def orderKey (x : Float64) : Int :=
  if x.sign then -((x.bits.val % 2 ^ 63 : Nat) : Int) else ((x.bits.val : Nat) : Int)

/-- Go's `<` on `float64`: false as soon as one side is NaN. -/
def lt (a b : Float64) : Bool :=
  !a.isNaN && !b.isNaN && decide (a.orderKey < b.orderKey)

/-- Go's `<=` on `float64`: false as soon as one side is NaN. -/
def le (a b : Float64) : Bool :=
  !a.isNaN && !b.isNaN && decide (a.orderKey ≤ b.orderKey)

/-- The constant `100` converted to `float64`. -/
def hundred : Float64 := ⟨0x4059000000000000⟩

/-- The constant `0.30` converted to `float64` (nearest binary64 value). -/
def threeTenths : Float64 := ⟨0x3FD3333333333333⟩

/-- The binary64 value nearest to `99.99`. -/
def ninetyNine99 : Float64 := ⟨0x4058FF5C28F5C28F⟩

/-- The binary64 value `42.5`. -/
def fortyTwoHalf : Float64 := ⟨0x4045400000000000⟩

/-- The binary64 value `+0`. -/
def zero : Float64 := ⟨0⟩

/-- A quiet NaN. -/
def nan : Float64 := ⟨0x7FF8000000000001⟩

end Float64

/-! ## `fmt.Sprintf` for the verbs used by `status.go`

`fmt` and `strconv` belong to the Go standard library.  The definitions below
follow their documented behaviour for `%.2f`: the exact value of the binary
number is rounded to two decimals, ties to even; the sign bit gives a leading
`-`; NaN and the infinities are written `NaN`, `+Inf`, `-Inf`. -/

/-- Decimal digits of `n`, least significant first; `fuel` bounds the number of digits. -/
def digitsRev : Nat → Nat → List Char
  | 0, _ => []
  | fuel + 1, n =>
    if n < 10 then [Char.ofNat (48 + n)]
    else Char.ofNat (48 + n % 10) :: digitsRev fuel (n / 10)

/-- Decimal representation of a natural number. -/
def natDigits (n : Nat) : List Char := (digitsRev (n + 1) n).reverse

/-- Round `a / 2 ^ k` to the nearest integer, ties to even
(the rounding of Go's `strconv` when it shortens an exact decimal expansion). -/
def roundHalfEven (a k : Nat) : Nat :=
  let q := a / 2 ^ k
  let r := a % 2 ^ k
  if 2 * r > 2 ^ k then q + 1
  else if 2 * r = 2 ^ k ∧ q % 2 = 1 then q + 1
  else q

/-- The integer nearest to `|x| * 100` for a finite `x`. -/
def hundredths (x : Float64) : Nat :=
  if 1075 ≤ x.scale then x.significand * 100 * 2 ^ (x.scale - 1075)
  else roundHalfEven (x.significand * 100) (1075 - x.scale)

/-- Go's `%.2f` applied to a `float64`. -/
def formatFloat2 (x : Float64) : List Char :=
  if x.isNaN then "NaN".data
  else if x.isInf then (if x.sign then "-Inf".data else "+Inf".data)
  else
    let n := hundredths x
    (if x.sign then ['-'] else []) ++ natDigits (n / 100) ++
      ['.', Char.ofNat (48 + n / 10 % 10), Char.ofNat (48 + n % 10)]

/-! ## Data model -/

/-- Modelled from the spec: the package `pkg/errors` is not part of `status.go`.
A Go `error` value that is not nil: `errors.ErrNotInCluster` and
`errors.ErrNotInDevMode` are the two package-level values `status.go` names
(the usage error and the "not in development mode" error of §7 of the spec);
every other error is identified by its text. -/
inductive GoError
  | ErrNotInCluster
  | ErrNotInDevMode
  | other (msg : String)
deriving DecidableEq, Repr

/-- Modelled from the spec: the type `model.Dev` is declared in `pkg/model`,
not in `status.go`.  The manifest: `status.go` reads and writes only `Namespace`;
`others` stands for all remaining fields. -/
structure Dev where
  Namespace : String
  others : String
deriving DecidableEq, Repr

/-- Modelled from the spec: the type `syncthing.Syncthing` is declared in
`pkg/syncthing`, not in `status.go`.  The sync session: `status.go` reads the
three fields named here; `others` stands for the fields it does not read. -/
structure Syncthing where
  GUIAddress : String
  RemoteGUIAddress : String
  GUIPassword : String
  others : String
deriving DecidableEq, Repr

/-- An operand of a formatted logging call. -/
inductive Arg
  | float (x : Float64)
  | str (s : String)
  | err (e : GoError)
deriving DecidableEq

/-- One call made by the command to a collaborator, with its arguments. -/
inductive Event
  | logInfo (format : String)
  | logDebugf (format : String) (args : List Arg)
  | logInformation (format : String) (args : List Arg)
  | logSuccess (format : String) (args : List Arg)
  | logYellow (format : String) (args : List Arg)
  | InCluster
  | LoadDev (devPath : String)
  | UpdateNamespace (dev : Dev) (ns : String)
  | GetLocal
  | SyncthingLoad (dev : Dev)
  | StatusRun (dev : Dev) (sy : Syncthing)
  | NewSpinner (label : String)
  | SpinnerStart
  | SpinnerUpdate (message : String)
  | SpinnerStop
  | Sleep (seconds : Nat)
  | TrackStatus (success : Bool) (showInfo : Bool)
deriving DecidableEq

/-- Go's `fmt.Sprintf` on the verbs `status.go` uses: `%%`, `%.2f` with a
`float64` operand and `%s` with a string operand; any other character is copied. -/
def sprintf : List Char → List Arg → List Char
  | [], _ => []
  | '%' :: '%' :: rest, args => '%' :: sprintf rest args
  | '%' :: '.' :: '2' :: 'f' :: rest, Arg.float x :: args => formatFloat2 x ++ sprintf rest args
  | '%' :: 's' :: rest, Arg.str s :: args => s.data ++ sprintf rest args
  | c :: rest, args => c :: sprintf rest args

/-- How a line written for the user is styled. -/
inductive Style
  | success
  | warning
  | information
deriving DecidableEq, Repr

/-- A line written to the user-facing output. -/
structure Line where
  style : Style
  text : String
deriving DecidableEq, Repr

/-- Modelled from the spec: the logger `pkg/log` is not part of `status.go`.
Following §4.3, §4.4 and §7 of the spec, `log.Success` writes one success-styled
line, `log.Yellow` one warning-styled line and `log.Information` one plain line,
each holding the formatted message; `log.Info` and `log.Debugf` go to the log
only and every other call writes no line. -/
def Event.line : Event → Option Line
  | .logSuccess format args => some ⟨.success, String.mk (sprintf format.data args)⟩
  | .logYellow format args => some ⟨.warning, String.mk (sprintf format.data args)⟩
  | .logInformation format args => some ⟨.information, String.mk (sprintf format.data args)⟩
  | _ => none

/-- The lines a trace shows to the user, in order. -/
def userOutput (t : List Event) : List Line := t.filterMap Event.line

/-- The results of the collaborators of one invocation, none of which is
defined in `status.go`: `k8Client.InCluster`, `utils.LoadDev`,
`dev.UpdateNamespace` (which updates the manifest in place), `k8Client.GetLocal`
(of whose results only the namespace is used), `syncthing.Load`, `status.Run`
and `renderProgressBar`.  `StatusRun k` is the answer of the Progress Source to
the query number `k` (counted from 0). -/
structure Env where
  InCluster : Bool
  LoadDev : String → Except GoError Dev
  UpdateNamespace : Dev → String → Except GoError Dev
  GetLocal : Except GoError String
  SyncthingLoad : Dev → Except GoError Syncthing
  StatusRun : Nat → Dev → Syncthing → Except GoError Float64
  renderProgressBar : String → Float64 → Float64 → String

/-- The command-line flags `--file`, `--namespace` (field `ns`), `--info`, `--watch`. -/
structure Flags where
  devPath : String
  ns : String
  showInfo : Bool
  watch : Bool

/-- The observable state: the calls made so far and the number of Progress
Source queries among them. -/
structure World where
  trace : List Event
  queries : Nat
deriving DecidableEq

namespace World

/-- The state before the command starts. -/
def init : World := ⟨[], 0⟩

/-- Record one call. -/
def emit (w : World) (e : Event) : World := { w with trace := w.trace ++ [e] }

end World

/-- The call `status.Run(ctx, dev, sy)`: query number `w.queries` of the Progress Source. -/
def statusRun (env : Env) (dev : Dev) (sy : Syncthing) (w : World) :
    Except GoError Float64 × World :=
  (env.StatusRun w.queries dev sy,
    { trace := w.trace ++ [Event.StatusRun dev sy], queries := w.queries + 1 })

/-! ## `runWithoutWatch` -/

/-- The function `runWithoutWatch` of `status.go`; `none` is the nil error. -/
def runWithoutWatch (env : Env) (dev : Dev) (sy : Syncthing) (w : World) :
    Option GoError × World :=
  match statusRun env dev sy w with
  | (.error err, w) => (some err, w)
  | (.ok progress, w) =>
    if Float64.eq progress Float64.hundred then
      (none, w.emit (.logSuccess "Synchronization status: %.2f%%" [.float progress]))
    else
      (none, w.emit (.logYellow "Synchronization status: %.2f%%" [.float progress]))

/-! ## `runWithWatch` -/

/-- The local `postfix` of `runWithWatch`. -/
def postfixLabel : String := "Synchronizing your files..."

/-- The local `pbScaling` of `runWithWatch`. -/
def pbScaling : Float64 := Float64.threeTenths

/-- The text handed to `spinner.Update` for a sample `progress`. -/
def watchMessage (env : Env) (progress : Float64) : String :=
  if Float64.eq progress Float64.hundred then "Files synchronized"
  else env.renderProgressBar postfixLabel progress pbScaling

/-- Where the `for` loop of `runWithWatch` stands after an iteration. -/
inductive LoopState
  | running (w : World)
  | returned (err : GoError) (w : World)
deriving DecidableEq

/-- One iteration of the `for` loop of `runWithWatch`. -/
def watchStep (env : Env) (dev : Dev) (sy : Syncthing) (w : World) : LoopState :=
  match statusRun env dev sy w with
  | (.error err, w) => .returned err w
  | (.ok progress, w) =>
    .running ((w.emit (.SpinnerUpdate (watchMessage env progress))).emit (.Sleep 2))

/-- The `for` loop of `runWithWatch` after at most `fuel` iterations:
`returned` as soon as an iteration returns, `running` while none has. -/
def watchLoop (env : Env) (dev : Dev) (sy : Syncthing) : Nat → World → LoopState
  | 0, w => .running w
  | fuel + 1, w =>
    match watchStep env dev sy w with
    | .returned err w => .returned err w
    | .running w => watchLoop env dev sy fuel w

/-- What a function has done once the fuel is used up: it is still inside
its loop, or it has returned an error value (`none` for nil). -/
inductive Outcome
  | running
  | returned (err : Option GoError)
deriving DecidableEq, Repr

/-- The function `runWithWatch` of `status.go`, its loop bounded by `fuel`;
the deferred `spinner.Stop()` runs when the function returns. -/
def runWithWatch (env : Env) (dev : Dev) (sy : Syncthing) (fuel : Nat) (w : World) :
    Outcome × World :=
  let w := w.emit (.NewSpinner postfixLabel)
  let w := w.emit .SpinnerStart
  match watchLoop env dev sy fuel w with
  | .running w => (.running, w)
  | .returned err w => (.returned (some err), w.emit .SpinnerStop)

/-- The three calls of a loop iteration whose query succeeded, `message`
being the text handed to `spinner.Update`. -/
def iterationEvents (dev : Dev) (sy : Syncthing) (message : String) : List Event :=
  [.StatusRun dev sy, .SpinnerUpdate message, .Sleep 2]

/-- The world a loop state holds. -/
def LoopState.world : LoopState → World
  | .running w => w
  | .returned _ w => w

/-- Whether a call is `spinner.Update`. -/
def Event.isSpinnerUpdate : Event → Bool
  | .SpinnerUpdate _ => true
  | _ => false

/-- Whether a call is a query of the Progress Source. -/
def Event.isStatusRun : Event → Bool
  | .StatusRun _ _ => true
  | _ => false

/-- Whether a call is `analytics.TrackStatus`. -/
def Event.isTrackStatus : Event → Bool
  | .TrackStatus _ _ => true
  | _ => false

/-- Whether a call is `log.Debugf`. -/
def Event.isDebugf : Event → Bool
  | .logDebugf _ _ => true
  | _ => false

/-! ## `Status` -/

/-- The `RunE` closure of the `status` command, the watch loop bounded by `fuel`. -/
def Status (env : Env) (flags : Flags) (fuel : Nat) (w : World) : Outcome × World :=
  let w := w.emit (.logInfo "starting status command")
  let w := w.emit .InCluster
  if env.InCluster then (.returned (some .ErrNotInCluster), w)
  else
    let w := w.emit (.LoadDev flags.devPath)
    match env.LoadDev flags.devPath with
    | .error err => (.returned (some err), w)
    | .ok dev =>
      let w := w.emit (.UpdateNamespace dev flags.ns)
      match env.UpdateNamespace dev flags.ns with
      | .error err => (.returned (some err), w)
      | .ok dev =>
        let w := w.emit .GetLocal
        match env.GetLocal with
        | .error err => (.returned (some err), w)
        | .ok ns =>
          let dev := if dev.Namespace = "" then { dev with Namespace := ns } else dev
          let w := w.emit (.SyncthingLoad dev)
          match env.SyncthingLoad dev with
          | .error err =>
            (.returned (some .ErrNotInDevMode),
              w.emit (.logDebugf "error accessing to syncthing info file: %s" [.err err]))
          | .ok sy =>
            let w :=
              if flags.showInfo then
                (((w.emit (.logInformation "Local syncthing url: http://%s" [.str sy.GUIAddress])).emit
                  (.logInformation "Remote syncthing url: http://%s" [.str sy.RemoteGUIAddress])).emit
                  (.logInformation "Syncthing username: okteto" [])).emit
                  (.logInformation "Syncthing password: %s" [.str sy.GUIPassword])
              else w
            match (if flags.watch then runWithWatch env dev sy fuel w
                   else
                     let r := runWithoutWatch env dev sy w
                     (.returned r.1, r.2)) with
            | (.running, w) => (.running, w)
            | (.returned err, w) =>
              (.returned err, w.emit (.TrackStatus err.isNone flags.showInfo))

/-- The calls of `Status` up to and including the attempt to load the sync
session for the manifest `dev`, `loaded` being the manifest `LoadDev` returned. -/
def stageEvents (flags : Flags) (loaded dev : Dev) : List Event :=
  [.logInfo "starting status command", .InCluster, .LoadDev flags.devPath,
    .UpdateNamespace loaded flags.ns, .GetLocal, .SyncthingLoad dev]

/-- The calls of the `if showInfo` block of `Status`. -/
def infoEvents (showInfo : Bool) (sy : Syncthing) : List Event :=
  if showInfo then
    [.logInformation "Local syncthing url: http://%s" [.str sy.GUIAddress],
      .logInformation "Remote syncthing url: http://%s" [.str sy.RemoteGUIAddress],
      .logInformation "Syncthing username: okteto" [],
      .logInformation "Syncthing password: %s" [.str sy.GUIPassword]]
  else []

/-- The world in which the polling routine starts: after the calls of the
stages and of the `if showInfo` block. -/
def pollingWorld (flags : Flags) (w : World) (loaded dev : Dev) (sy : Syncthing) : World :=
  ⟨w.trace ++ stageEvents flags loaded dev ++ infoEvents flags.showInfo sy, w.queries⟩

/-- The polling routine the `--watch` flag selects. -/
def poll (env : Env) (flags : Flags) (dev : Dev) (sy : Syncthing) (fuel : Nat) (w : World) :
    Outcome × World :=
  if flags.watch then runWithWatch env dev sy fuel w
  else (.returned (runWithoutWatch env dev sy w).1, (runWithoutWatch env dev sy w).2)

/-- Every stage before the polling routine succeeds: the caller is outside the
cluster, the manifest loads as `loaded`, the namespace override and the local
context resolve, and the session `sy` loads for the manifest `dev` that results
from the namespace fallback. -/
def Preconditions (env : Env) (flags : Flags) (loaded dev : Dev) (sy : Syncthing) : Prop :=
  env.InCluster = false ∧ env.LoadDev flags.devPath = .ok loaded ∧
    ∃ d1 ns, env.UpdateNamespace loaded flags.ns = .ok d1 ∧ env.GetLocal = .ok ns ∧
      dev = (if d1.Namespace = "" then { d1 with Namespace := ns } else d1) ∧
      env.SyncthingLoad dev = .ok sy

/-- Whether a call is one a polling routine makes: a query, a spinner call,
a sleep or a status line. -/
def Event.isPolling : Event → Bool
  | .StatusRun _ _ => true
  | .NewSpinner _ => true
  | .SpinnerStart => true
  | .SpinnerUpdate _ => true
  | .SpinnerStop => true
  | .Sleep _ => true
  | .logSuccess _ _ => true
  | .logYellow _ _ => true
  | _ => false

/-- Whether a call is `syncthing.Load`. -/
def Event.isSyncthingLoad : Event → Bool
  | .SyncthingLoad _ => true
  | _ => false

/-! ## Sample collaborators -/

/-- A manifest without a namespace. -/
def sampleDev : Dev := ⟨"", "name: web"⟩

/-- A manifest with the namespace `staging`. -/
def stagingDev : Dev := ⟨"staging", "name: web"⟩

/-- A sync session. -/
def sampleSession : Syncthing := ⟨"localhost:8384", "localhost:8385", "s3cret", ""⟩

/-- An error of a collaborator. -/
def sampleError : GoError := .other "connection refused"

/-- Collaborators whose stages all succeed: the manifest is `sampleDev`, the
override leaves it unchanged, the local namespace is `default`, and the
Progress Source answers as `source` says. -/
def sampleEnv (inCluster : Bool) (source : Nat → Except GoError Float64) : Env where
  InCluster := inCluster
  LoadDev := fun _ => .ok sampleDev
  UpdateNamespace := fun dev _ => .ok dev
  GetLocal := .ok "default"
  SyncthingLoad := fun _ => .ok sampleSession
  StatusRun := fun k _ _ => source k
  renderProgressBar := fun label _ _ => label

/-- Collaborators like `sampleEnv` whose session load fails with `u`. -/
def noSessionEnv (u : GoError) : Env :=
  { sampleEnv false (fun _ => .ok Float64.hundred) with SyncthingLoad := fun _ => .error u }

/-- Collaborators like `sampleEnv` whose manifest does not load. -/
def noManifestEnv : Env :=
  { sampleEnv false (fun _ => .ok Float64.hundred) with LoadDev := fun _ => .error sampleError }

/-- Collaborators like `sampleEnv` whose manifest names the namespace `staging`. -/
def stagingEnv : Env :=
  { sampleEnv false (fun _ => .ok Float64.hundred) with LoadDev := fun _ => .ok stagingDev }

/-- A manifest whose namespace is `default`, the local namespace of `sampleEnv`. -/
def defaultDev : Dev := ⟨"default", "name: web"⟩

/-- Collaborators like `sampleEnv` whose manifest names the namespace `default`. -/
def defaultNsEnv : Env :=
  { sampleEnv false (fun _ => .ok Float64.hundred) with LoadDev := fun _ => .ok defaultDev }

/-- A Progress Source that answers 100, then 99.99, then fails. -/
def sampleSource : Nat → Except GoError Float64
  | 0 => .ok Float64.hundred
  | 1 => .ok Float64.ninetyNine99
  | _ => .error sampleError

/-- Flags with the default manifest path and no namespace override. -/
def sampleFlags (showInfo watch : Bool) : Flags := ⟨"okteto.yml", "", showInfo, watch⟩

/-! ## Facts about the `float64` constants -/

/-- The bit pattern `hundred` denotes the number 100: its significand times
`2 ^ (scale - 1075)` is 100. -/
theorem Float64.hundred_value :
    Float64.hundred.sign = false ∧ Float64.hundred.isNaN = false ∧
      Float64.hundred.isInf = false ∧
      Float64.hundred.significand = 100 * 2 ^ (1075 - Float64.hundred.scale) := by
  decide

/-- The bit pattern `threeTenths` is a binary64 value nearest to 3/10: with
`M / 2 ^ 54` its value, `|10 * M - 3 * 2 ^ 54| ≤ 5`. -/
theorem Float64.threeTenths_value :
    Float64.threeTenths.sign = false ∧ Float64.threeTenths.scale = 1021 ∧
      3 * 2 ^ 54 ≤ 10 * Float64.threeTenths.significand + 5 ∧
      10 * Float64.threeTenths.significand ≤ 3 * 2 ^ 54 + 5 := by
  decide

/-- Go's `progress == 100` holds for the value 100 and for no other `float64`. -/
theorem Float64.eq_hundred_iff (p : Float64) :
    Float64.eq p Float64.hundred = true ↔ p = Float64.hundred := by
  constructor
  · intro h
    simp only [Float64.eq, Bool.and_eq_true, Bool.or_eq_true, decide_eq_true_eq] at h
    rcases h.2 with h1 | h1
    · exact h1
    · exact absurd h1.2 (by decide)
  · rintro rfl
    decide

/-- A value strictly below 100 is not 100. -/
theorem Float64.ne_hundred_of_lt (p : Float64) (h : Float64.lt p Float64.hundred = true) :
    p ≠ Float64.hundred := by
  rintro rfl
  exact absurd h (by decide)

/-- A decimal digit character. -/
theorem isDigit_ofNat (k : Nat) (hk : k < 10) : (Char.ofNat (48 + k)).isDigit = true := by
  interval_cases k <;> decide

/-- The decimal representation of a number holds digits only. -/
theorem digitsRev_isDigit : ∀ (fuel n : Nat) (c : Char), c ∈ digitsRev fuel n → c.isDigit = true
  | 0, _, c, h => by simp [digitsRev] at h
  | fuel + 1, n, c, h => by
    unfold digitsRev at h
    split at h
    · rename_i hn
      simp only [List.mem_singleton] at h
      subst h
      exact isDigit_ofNat n hn
    · simp only [List.mem_cons] at h
      rcases h with h | h
      · subst h
        exact isDigit_ofNat _ (Nat.mod_lt _ (by decide))
      · exact digitsRev_isDigit fuel (n / 10) c h

/-- Under `%.2f` a finite value is written with exactly two digits after the point. -/
theorem formatFloat2_two_decimals (p : Float64) (hnan : p.isNaN = false)
    (hinf : p.isInf = false) :
    ∃ whole d1 d2, formatFloat2 p = whole ++ ['.', d1, d2] ∧
      d1.isDigit = true ∧ d2.isDigit = true ∧ '.' ∉ whole := by
  refine ⟨(if p.sign then ['-'] else []) ++ natDigits (hundredths p / 100),
    Char.ofNat (48 + hundredths p / 10 % 10), Char.ofNat (48 + hundredths p % 10), ?_,
    isDigit_ofNat _ (Nat.mod_lt _ (by decide)), ?_, ?_⟩
  · simp [formatFloat2, hnan, hinf]
  · exact isDigit_ofNat _ (Nat.mod_lt _ (by decide))
  · intro hmem
    rcases List.mem_append.1 hmem with h | h
    · cases hs : p.sign <;> simp [hs] at h
    · have := digitsRev_isDigit _ _ _ (List.mem_reverse.1 h)
      exact absurd this (by decide)

/-! ## One-shot mode -/

/-- The status line format applied to one sample. -/
theorem sprintf_status (p : Float64) :
    String.mk (sprintf "Synchronization status: %.2f%%".data [Arg.float p]) =
      "Synchronization status: " ++ String.mk (formatFloat2 p) ++ "%" := by
  rfl

/-- C1: when the Progress Source answers the query of `runWithoutWatch`
with a percent `p`, the function makes that one query, writes exactly one line
with text "Synchronization status: " followed by `p` under `%.2f` and "%",
and returns nil; the line is success-styled exactly when `p` is 100 and
warning-styled for every other `p`, in particular for `0 ≤ p < 100`; for a
finite `p` the number is written with exactly two digits after the point. -/
theorem runWithoutWatch_reports (env : Env) (dev : Dev) (sy : Syncthing) (w : World)
    (p : Float64) (h : env.StatusRun w.queries dev sy = .ok p) :
    ∃ ev style,
      runWithoutWatch env dev sy w =
        (none, ⟨w.trace ++ [Event.StatusRun dev sy, ev], w.queries + 1⟩) ∧
      ev.isStatusRun = false ∧
      userOutput [Event.StatusRun dev sy, ev] =
        [⟨style, "Synchronization status: " ++ String.mk (formatFloat2 p) ++ "%"⟩] ∧
      (style = Style.success ↔ p = Float64.hundred) ∧
      (p ≠ Float64.hundred → style = Style.warning) ∧
      (Float64.le Float64.zero p = true → Float64.lt p Float64.hundred = true →
        style = Style.warning) ∧
      (p.isNaN = false → p.isInf = false →
        ∃ whole d1 d2, formatFloat2 p = whole ++ ['.', d1, d2] ∧
          d1.isDigit = true ∧ d2.isDigit = true ∧ '.' ∉ whole) := by
  by_cases hp : p = Float64.hundred
  · refine ⟨.logSuccess "Synchronization status: %.2f%%" [.float p], .success, ?_, rfl, ?_,
      by simp [hp], fun h' => absurd hp h', fun _ h' => absurd hp (Float64.ne_hundred_of_lt p h'),
      formatFloat2_two_decimals p⟩
    · have he : Float64.eq p Float64.hundred = true := (Float64.eq_hundred_iff p).2 hp
      simp [runWithoutWatch, statusRun, h, he, World.emit]
    · simp [userOutput, Event.line]
      exact sprintf_status p
  · refine ⟨.logYellow "Synchronization status: %.2f%%" [.float p], .warning, ?_, rfl, ?_,
      by simp [hp], fun _ => rfl, fun _ _ => rfl, formatFloat2_two_decimals p⟩
    · have he : ¬ Float64.eq p Float64.hundred = true := fun h' =>
        hp ((Float64.eq_hundred_iff p).1 h')
      simp [runWithoutWatch, statusRun, h, he, World.emit]
    · simp [userOutput, Event.line]
      exact sprintf_status p

/-- C2: when the Progress Source answers the query of `runWithoutWatch`
with an error `e`, the function returns exactly `e` after that single query and
writes no line. -/
theorem runWithoutWatch_propagates (env : Env) (dev : Dev) (sy : Syncthing) (w : World)
    (e : GoError) (h : env.StatusRun w.queries dev sy = .error e) :
    runWithoutWatch env dev sy w =
        (some e, ⟨w.trace ++ [Event.StatusRun dev sy], w.queries + 1⟩) ∧
      userOutput [Event.StatusRun dev sy] = [] := by
  refine ⟨?_, rfl⟩
  simp [runWithoutWatch, statusRun, h]

/-! ## Watch mode -/

/-- An iteration whose query succeeds keeps the loop running. -/
theorem watchStep_ok (env : Env) (dev : Dev) (sy : Syncthing) (w : World) (p : Float64)
    (h : env.StatusRun w.queries dev sy = .ok p) :
    watchStep env dev sy w =
      .running ⟨w.trace ++ iterationEvents dev sy (watchMessage env p), w.queries + 1⟩ := by
  simp [watchStep, statusRun, h, World.emit, iterationEvents]

/-- An iteration whose query fails returns the error. -/
theorem watchStep_error (env : Env) (dev : Dev) (sy : Syncthing) (w : World) (e : GoError)
    (h : env.StatusRun w.queries dev sy = .error e) :
    watchStep env dev sy w =
      .returned e ⟨w.trace ++ [Event.StatusRun dev sy], w.queries + 1⟩ := by
  simp [watchStep, statusRun, h]

/-- An iteration returns only when its query failed. -/
theorem watchStep_returned (env : Env) (dev : Dev) (sy : Syncthing) (w w' : World)
    (e : GoError) (h : watchStep env dev sy w = .returned e w') :
    env.StatusRun w.queries dev sy = .error e ∧
      w' = ⟨w.trace ++ [Event.StatusRun dev sy], w.queries + 1⟩ := by
  cases hq : env.StatusRun w.queries dev sy with
  | error e' =>
    rw [watchStep_error env dev sy w e' hq] at h
    injection h with h1 h2
    exact ⟨by rw [h1], h2.symm⟩
  | ok p =>
    rw [watchStep_ok env dev sy w p hq] at h
    cases h

/-- While the queries succeed with the samples `ps`, the loop runs through
one iteration per sample. -/
theorem watchLoop_prefix (env : Env) (dev : Dev) (sy : Syncthing) :
    ∀ (ps : List Float64) (w : World),
      (∀ i (hi : i < ps.length), env.StatusRun (w.queries + i) dev sy = .ok (ps.get ⟨i, hi⟩)) →
      ∀ fuel, watchLoop env dev sy (ps.length + fuel) w =
        watchLoop env dev sy fuel
          ⟨w.trace ++ (ps.map (watchMessage env)).flatMap (iterationEvents dev sy),
            w.queries + ps.length⟩
  | [], w, _, fuel => by simp
  | p :: ps, w, h, fuel => by
    have h0 : env.StatusRun w.queries dev sy = .ok p := by
      simpa using h 0 (by simp)
    have hs : ∀ i (hi : i < ps.length),
        env.StatusRun (w.queries + 1 + i) dev sy = .ok (ps.get ⟨i, hi⟩) := by
      intro i hi
      have := h (i + 1) (by simpa using hi)
      simpa [Nat.add_assoc, Nat.add_comm 1 i] using this
    have ih := watchLoop_prefix env dev sy ps
      ⟨w.trace ++ iterationEvents dev sy (watchMessage env p), w.queries + 1⟩ hs fuel
    have hlen : (p :: ps).length + fuel = (ps.length + fuel) + 1 := by
      simp [Nat.add_assoc, Nat.add_comm 1 fuel]
    rw [hlen, watchLoop, watchStep_ok env dev sy w p h0]
    simp only [ih, List.map_cons, List.flatMap_cons, List.append_assoc, List.length_cons,
      Nat.add_assoc, Nat.add_comm 1 ps.length]

/-- With the first `ps.length` queries succeeding and the next one failing,
the loop returns the error at that query. -/
theorem watchLoop_first_error (env : Env) (dev : Dev) (sy : Syncthing) (ps : List Float64)
    (w : World) (e : GoError) (fuel : Nat)
    (hps : ∀ i (hi : i < ps.length),
      env.StatusRun (w.queries + i) dev sy = .ok (ps.get ⟨i, hi⟩))
    (hfail : env.StatusRun (w.queries + ps.length) dev sy = .error e)
    (hfuel : ps.length < fuel) :
    watchLoop env dev sy fuel w =
      .returned e
        ⟨w.trace ++ (ps.map (watchMessage env)).flatMap (iterationEvents dev sy) ++
            [Event.StatusRun dev sy], w.queries + ps.length + 1⟩ := by
  obtain ⟨k, hk⟩ : ∃ k, fuel = ps.length + (k + 1) := ⟨fuel - ps.length - 1, by omega⟩
  rw [hk, watchLoop_prefix env dev sy ps w hps (k + 1), watchLoop,
    watchStep_error env dev sy _ e hfail]

/-- The function `runWithWatch` around its loop. -/
theorem runWithWatch_eq (env : Env) (dev : Dev) (sy : Syncthing) (fuel : Nat) (w : World) :
    runWithWatch env dev sy fuel w =
      match watchLoop env dev sy fuel
          ⟨w.trace ++ [Event.NewSpinner "Synchronizing your files...", Event.SpinnerStart],
            w.queries⟩ with
      | .running w' => (.running, w')
      | .returned err w' =>
        (.returned (some err), ⟨w'.trace ++ [Event.SpinnerStop], w'.queries⟩) := by
  simp [runWithWatch, World.emit, postfixLabel]

/-- Samples for a run of successful queries. -/
theorem exists_samples (env : Env) (dev : Dev) (sy : Syncthing) :
    ∀ (n q : Nat), (∀ i, i < n → ∃ p, env.StatusRun (q + i) dev sy = .ok p) →
      ∃ ps : List Float64, ps.length = n ∧
        ∀ i (hi : i < ps.length), env.StatusRun (q + i) dev sy = .ok (ps.get ⟨i, hi⟩)
  | 0, _, _ => ⟨[], rfl, fun i hi => absurd hi (by simp)⟩
  | n + 1, q, h => by
    obtain ⟨p, hp⟩ := h 0 (Nat.succ_pos n)
    obtain ⟨ps, hlen, hps⟩ := exists_samples env dev sy n (q + 1) (fun i hi => by
      have := h (i + 1) (Nat.succ_lt_succ hi)
      simpa [Nat.add_assoc, Nat.add_comm 1 i] using this)
    refine ⟨p :: ps, by simp [hlen], ?_⟩
    intro i hi
    cases i with
    | zero => simpa using hp
    | succ i =>
      have := hps i (by simpa using hi)
      simpa [Nat.add_assoc, Nat.add_comm 1 i] using this

/-- The message of `spinner.Update`, with Go's `==` read as equality with 100. -/
theorem watchMessage_eq (env : Env) (p : Float64) :
    watchMessage env p =
      if p = Float64.hundred then "Files synchronized"
      else env.renderProgressBar "Synchronizing your files..." p Float64.threeTenths := by
  by_cases hp : p = Float64.hundred
  · have he : Float64.eq p Float64.hundred = true := (Float64.eq_hundred_iff p).2 hp
    simp only [watchMessage, he, if_true, if_pos hp]
  · have he : ¬ Float64.eq p Float64.hundred = true := fun h' =>
      hp ((Float64.eq_hundred_iff p).1 h')
    simp [watchMessage, he, hp, postfixLabel, pbScaling]

/-- Counting the calls of successful iterations. -/
theorem count_iterations (dev : Dev) (sy : Syncthing) (msgs : List String) :
    (msgs.flatMap (iterationEvents dev sy)).count Event.SpinnerStart = 0 ∧
      (msgs.flatMap (iterationEvents dev sy)).count Event.SpinnerStop = 0 ∧
      (msgs.flatMap (iterationEvents dev sy)).countP Event.isSpinnerUpdate = msgs.length ∧
      (msgs.flatMap (iterationEvents dev sy)).countP Event.isStatusRun = msgs.length := by
  induction msgs with
  | nil => simp
  | cons m ms ih =>
    obtain ⟨h1, h2, h3, h4⟩ := ih
    simp [List.flatMap_cons, iterationEvents, List.count_cons, List.countP_cons,
      Event.isSpinnerUpdate, Event.isStatusRun] at h1 h2 h3 h4 ⊢
    simp [h1, h2, h3, h4]

/-- The loop returns only at a failed query, the first one. -/
theorem watchLoop_returned (env : Env) (dev : Dev) (sy : Syncthing) :
    ∀ (fuel : Nat) (w w' : World) (e : GoError),
      watchLoop env dev sy fuel w = .returned e w' →
      ∃ n, n < fuel ∧ (∀ i, i < n → ∃ p, env.StatusRun (w.queries + i) dev sy = .ok p) ∧
        env.StatusRun (w.queries + n) dev sy = .error e ∧ w'.queries = w.queries + n + 1
  | 0, w, w', e, h => by simp [watchLoop] at h
  | fuel + 1, w, w', e, h => by
    cases hq : env.StatusRun w.queries dev sy with
    | error e' =>
      rw [watchLoop, watchStep_error env dev sy w e' hq] at h
      injection h with h1 h2
      refine ⟨0, Nat.succ_pos fuel, fun i hi => absurd hi (Nat.not_lt_zero i), ?_, ?_⟩
      · simpa [h1] using hq
      · rw [← h2]
    | ok p =>
      rw [watchLoop, watchStep_ok env dev sy w p hq] at h
      obtain ⟨n, hn, hok, hfail, hw⟩ := watchLoop_returned env dev sy fuel _ w' e h
      refine ⟨n + 1, Nat.succ_lt_succ hn, ?_, ?_, ?_⟩
      · intro i hi
        cases i with
        | zero => exact ⟨p, by simpa using hq⟩
        | succ i =>
          have := hok i (Nat.lt_of_succ_lt_succ hi)
          simpa [Nat.add_assoc, Nat.add_comm 1 i] using this
      · simpa [Nat.add_assoc, Nat.add_comm 1 n] using hfail
      · simpa [Nat.add_assoc, Nat.add_comm 1 n] using hw

/-- While every query succeeds the loop is still running. -/
theorem watchLoop_running (env : Env) (dev : Dev) (sy : Syncthing)
    (h : ∀ k, ∃ p, env.StatusRun k dev sy = .ok p) :
    ∀ (fuel : Nat) (w : World), ∃ w', watchLoop env dev sy fuel w = .running w'
  | 0, w => ⟨w, rfl⟩
  | fuel + 1, w => by
    obtain ⟨p, hp⟩ := h w.queries
    rw [watchLoop, watchStep_ok env dev sy w p hp]
    exact watchLoop_running env dev sy h fuel _

/-- C3: when the first `n` queries of `runWithWatch` succeed and the next one
fails with `e`, the function returns exactly `e` (given more than `n` iterations
of fuel), and the calls it made are: the spinner is created and started, then
`n` iterations of query, `spinner.Update`, sleep, then the failed query, then
`spinner.Stop()`.  So `Start` occurs once and before every query, `Update` occurs
`n` times, none after the failed query, and `Stop` occurs once, as the last call. -/
theorem runWithWatch_stops_spinner_on_error (env : Env) (dev : Dev) (sy : Syncthing)
    (w : World) (n : Nat) (e : GoError) (fuel : Nat)
    (hok : ∀ i, i < n → ∃ p, env.StatusRun (w.queries + i) dev sy = .ok p)
    (hfail : env.StatusRun (w.queries + n) dev sy = .error e) (hfuel : n < fuel) :
    ∃ (msgs : List String) (T : List Event),
      msgs.length = n ∧
      T = [Event.NewSpinner "Synchronizing your files...", Event.SpinnerStart] ++
            msgs.flatMap (fun m => [Event.StatusRun dev sy, Event.SpinnerUpdate m, Event.Sleep 2]) ++
            [Event.StatusRun dev sy, Event.SpinnerStop] ∧
      runWithWatch env dev sy fuel w =
        (.returned (some e), ⟨w.trace ++ T, w.queries + n + 1⟩) ∧
      T.count Event.SpinnerStart = 1 ∧
      T.countP Event.isSpinnerUpdate = n ∧
      T.count Event.SpinnerStop = 1 ∧
      T.getLast? = some Event.SpinnerStop ∧
      T.countP Event.isStatusRun = n + 1 := by
  obtain ⟨ps, hlen, hps⟩ := exists_samples env dev sy n w.queries hok
  subst hlen
  have hfun : (fun m => [Event.StatusRun dev sy, Event.SpinnerUpdate m, Event.Sleep 2]) =
      iterationEvents dev sy := rfl
  obtain ⟨h1, h2, h3, h4⟩ := count_iterations dev sy (ps.map (watchMessage env))
  rw [List.length_map] at h3 h4
  refine ⟨ps.map (watchMessage env), _, by simp, rfl, ?_, ?_, ?_, ?_, ?_, ?_⟩
  · have hloop := watchLoop_first_error env dev sy ps
      ⟨w.trace ++ [Event.NewSpinner "Synchronizing your files...", Event.SpinnerStart],
        w.queries⟩ e fuel hps hfail hfuel
    rw [runWithWatch_eq, hloop, hfun]
    simp
  · rw [hfun]
    simp [List.count_cons, List.count_append, h1]
  · rw [hfun]
    simp [List.countP_cons, List.countP_append, h3, Event.isSpinnerUpdate]
  · rw [hfun]
    simp [List.count_cons, List.count_append, h2]
  · rw [show ∀ l : List Event,
        [Event.NewSpinner "Synchronizing your files...", Event.SpinnerStart] ++ l ++
          [Event.StatusRun dev sy, Event.SpinnerStop] =
        ([Event.NewSpinner "Synchronizing your files...", Event.SpinnerStart] ++ l ++
          [Event.StatusRun dev sy]) ++ [Event.SpinnerStop] from fun l => by simp]
    exact List.getLast?_concat _
  · rw [hfun]
    simp [List.countP_cons, List.countP_append, h4, Event.isStatusRun]

/-- The calls of the iterations over the samples `ps`, message by message. -/
theorem iterations_eq (env : Env) (dev : Dev) (sy : Syncthing) (ps : List Float64) :
    (ps.map (watchMessage env)).flatMap (iterationEvents dev sy) =
      ps.flatMap (fun p =>
        [Event.StatusRun dev sy,
          Event.SpinnerUpdate
            (if p = Float64.hundred then "Files synchronized"
             else env.renderProgressBar "Synchronizing your files..." p Float64.threeTenths),
          Event.Sleep 2]) := by
  induction ps with
  | nil => rfl
  | cons p ps ih =>
    simp only [List.map_cons, List.flatMap_cons, ih, iterationEvents, watchMessage_eq]

/-- C5: while the queries succeed with the samples `ps`, each iteration of
the watch loop makes one query, one `spinner.Update` and one sleep, and the
updated message is "Files synchronized" when the sample of that iteration is
exactly 100 and `renderProgressBar("Synchronizing your files...", p, 0.30)`
otherwise: a function of that sample alone.  The same calls appear in the
trace of `runWithWatch` when the next query fails. -/
theorem watchLoop_update_messages (env : Env) (dev : Dev) (sy : Syncthing) (w : World)
    (ps : List Float64)
    (h : ∀ i (hi : i < ps.length),
      env.StatusRun (w.queries + i) dev sy = .ok (ps.get ⟨i, hi⟩)) :
    watchLoop env dev sy ps.length w =
        .running
          ⟨w.trace ++ ps.flatMap (fun p =>
              [Event.StatusRun dev sy,
                Event.SpinnerUpdate
                  (if p = Float64.hundred then "Files synchronized"
                   else env.renderProgressBar "Synchronizing your files..." p
                     Float64.threeTenths),
                Event.Sleep 2]),
            w.queries + ps.length⟩ ∧
      ∀ e fuel, env.StatusRun (w.queries + ps.length) dev sy = .error e → ps.length < fuel →
        runWithWatch env dev sy fuel w =
          (.returned (some e),
            ⟨w.trace ++ [Event.NewSpinner "Synchronizing your files...", Event.SpinnerStart] ++
              ps.flatMap (fun p =>
                [Event.StatusRun dev sy,
                  Event.SpinnerUpdate
                    (if p = Float64.hundred then "Files synchronized"
                     else env.renderProgressBar "Synchronizing your files..." p
                       Float64.threeTenths),
                  Event.Sleep 2]) ++
              [Event.StatusRun dev sy, Event.SpinnerStop],
              w.queries + ps.length + 1⟩) := by
  constructor
  · have := watchLoop_prefix env dev sy ps w h 0
    rw [Nat.add_zero] at this
    rw [this, iterations_eq]
    rfl
  · intro e fuel hfail hfuel
    have hloop := watchLoop_first_error env dev sy ps
      ⟨w.trace ++ [Event.NewSpinner "Synchronizing your files...", Event.SpinnerStart],
        w.queries⟩ e fuel h hfail hfuel
    rw [runWithWatch_eq, hloop, iterations_eq]
    simp

/-! ## The command -/

/-- The in-cluster check fails the command at once. -/
theorem Status_inCluster (env : Env) (flags : Flags) (fuel : Nat) (w : World)
    (hc : env.InCluster = true) :
    Status env flags fuel w =
      (.returned (some .ErrNotInCluster),
        ⟨w.trace ++ [Event.logInfo "starting status command", Event.InCluster], w.queries⟩) := by
  simp [Status, hc, World.emit]

/-- A manifest that does not load fails the command with the loader's error. -/
theorem Status_loadDev_error (env : Env) (flags : Flags) (fuel : Nat) (w : World) (e : GoError)
    (hc : env.InCluster = false) (hl : env.LoadDev flags.devPath = .error e) :
    Status env flags fuel w =
      (.returned (some e),
        ⟨w.trace ++ [Event.logInfo "starting status command", Event.InCluster,
          Event.LoadDev flags.devPath], w.queries⟩) := by
  simp [Status, hc, hl, World.emit]

/-- A namespace override that fails ends the command with its error. -/
theorem Status_updateNamespace_error (env : Env) (flags : Flags) (fuel : Nat) (w : World)
    (d0 : Dev) (e : GoError)
    (hc : env.InCluster = false) (hl : env.LoadDev flags.devPath = .ok d0)
    (hu : env.UpdateNamespace d0 flags.ns = .error e) :
    Status env flags fuel w =
      (.returned (some e),
        ⟨w.trace ++ [Event.logInfo "starting status command", Event.InCluster,
          Event.LoadDev flags.devPath, Event.UpdateNamespace d0 flags.ns], w.queries⟩) := by
  simp [Status, hc, hl, hu, World.emit]

/-- A local context that does not resolve ends the command with its error. -/
theorem Status_getLocal_error (env : Env) (flags : Flags) (fuel : Nat) (w : World)
    (d0 d1 : Dev) (e : GoError)
    (hc : env.InCluster = false) (hl : env.LoadDev flags.devPath = .ok d0)
    (hu : env.UpdateNamespace d0 flags.ns = .ok d1) (hg : env.GetLocal = .error e) :
    Status env flags fuel w =
      (.returned (some e),
        ⟨w.trace ++ [Event.logInfo "starting status command", Event.InCluster,
          Event.LoadDev flags.devPath, Event.UpdateNamespace d0 flags.ns, Event.GetLocal],
          w.queries⟩) := by
  simp [Status, hc, hl, hu, hg, World.emit]

/-- A sync session that does not load ends the command with `ErrNotInDevMode`. -/
theorem Status_session_error (env : Env) (flags : Flags) (fuel : Nat) (w : World)
    (d0 d1 : Dev) (ns : String) (u : GoError)
    (hc : env.InCluster = false) (hl : env.LoadDev flags.devPath = .ok d0)
    (hu : env.UpdateNamespace d0 flags.ns = .ok d1) (hg : env.GetLocal = .ok ns)
    (hs : env.SyncthingLoad (if d1.Namespace = "" then { d1 with Namespace := ns } else d1) =
      .error u) :
    Status env flags fuel w =
      (.returned (some .ErrNotInDevMode),
        ⟨w.trace ++
          stageEvents flags d0 (if d1.Namespace = "" then { d1 with Namespace := ns } else d1) ++
          [Event.logDebugf "error accessing to syncthing info file: %s" [.err u]],
          w.queries⟩) := by
  simp [Status, hc, hl, hu, hg, hs, World.emit, stageEvents]

/-- With every precondition met the command runs the selected polling
routine and, when that returns, tracks the outcome and returns the same error. -/
theorem Status_poll (env : Env) (flags : Flags) (fuel : Nat) (w : World)
    (d0 dev : Dev) (sy : Syncthing) (hpre : Preconditions env flags d0 dev sy) :
    Status env flags fuel w =
      match poll env flags dev sy fuel (pollingWorld flags w d0 dev sy) with
      | (.running, w2) => (.running, w2)
      | (.returned err, w2) =>
        (.returned err,
          ⟨w2.trace ++ [Event.TrackStatus err.isNone flags.showInfo], w2.queries⟩) := by
  obtain ⟨hc, hl, d1, ns, hu, hg, hdev, hs⟩ := hpre
  subst hdev
  cases hi : flags.showInfo <;> cases hw : flags.watch <;>
    simp [Status, hc, hl, hu, hg, hs, hi, hw, World.emit, stageEvents, infoEvents, poll,
      pollingWorld]

/-- The stage at which the command leaves the precondition checks. -/
theorem Status_cases (env : Env) (flags : Flags) :
    env.InCluster = true ∨
    (env.InCluster = false ∧ ∃ e, env.LoadDev flags.devPath = .error e) ∨
    (env.InCluster = false ∧ ∃ d0 e, env.LoadDev flags.devPath = .ok d0 ∧
      env.UpdateNamespace d0 flags.ns = .error e) ∨
    (env.InCluster = false ∧ ∃ d0 d1 e, env.LoadDev flags.devPath = .ok d0 ∧
      env.UpdateNamespace d0 flags.ns = .ok d1 ∧ env.GetLocal = .error e) ∨
    (env.InCluster = false ∧ ∃ d0 d1 ns u, env.LoadDev flags.devPath = .ok d0 ∧
      env.UpdateNamespace d0 flags.ns = .ok d1 ∧ env.GetLocal = .ok ns ∧
      env.SyncthingLoad (if d1.Namespace = "" then { d1 with Namespace := ns } else d1) =
        .error u) ∨
    ∃ d0 dev sy, Preconditions env flags d0 dev sy := by
  cases hc : env.InCluster with
  | true => exact Or.inl rfl
  | false =>
    cases hl : env.LoadDev flags.devPath with
    | error e => exact Or.inr (Or.inl ⟨rfl, e, rfl⟩)
    | ok d0 =>
      cases hu : env.UpdateNamespace d0 flags.ns with
      | error e => exact Or.inr (Or.inr (Or.inl ⟨rfl, d0, e, rfl, hu⟩))
      | ok d1 =>
        cases hg : env.GetLocal with
        | error e => exact Or.inr (Or.inr (Or.inr (Or.inl ⟨rfl, d0, d1, e, rfl, hu, rfl⟩)))
        | ok ns =>
          cases hs : env.SyncthingLoad
              (if d1.Namespace = "" then { d1 with Namespace := ns } else d1) with
          | error u =>
            exact Or.inr (Or.inr (Or.inr (Or.inr (Or.inl ⟨rfl, d0, d1, ns, u, rfl, hu, rfl, hs⟩))))
          | ok sy =>
            exact Or.inr (Or.inr (Or.inr (Or.inr (Or.inr
              ⟨d0, _, sy, hc, hl, d1, ns, hu, hg, rfl, hs⟩))))

/-- The watch loop makes polling calls only. -/
theorem watchLoop_events (env : Env) (dev : Dev) (sy : Syncthing) :
    ∀ (fuel : Nat) (w : World), ∃ T,
      (watchLoop env dev sy fuel w).world.trace = w.trace ++ T ∧
        ∀ ev ∈ T, Event.isPolling ev = true
  | 0, w => ⟨[], by simp [watchLoop, LoopState.world], by simp⟩
  | fuel + 1, w => by
    cases hq : env.StatusRun w.queries dev sy with
    | error e =>
      refine ⟨[Event.StatusRun dev sy], ?_, by simp [Event.isPolling]⟩
      rw [watchLoop, watchStep_error env dev sy w e hq]
      rfl
    | ok p =>
      obtain ⟨T, hT, hall⟩ := watchLoop_events env dev sy fuel
        ⟨w.trace ++ iterationEvents dev sy (watchMessage env p), w.queries + 1⟩
      refine ⟨iterationEvents dev sy (watchMessage env p) ++ T, ?_, ?_⟩
      · rw [watchLoop, watchStep_ok env dev sy w p hq]
        simpa [List.append_assoc] using hT
      · intro ev hev
        rcases List.mem_append.1 hev with h | h
        · simp only [iterationEvents, List.mem_cons, List.mem_singleton, List.not_mem_nil,
            or_false] at h
          rcases h with h | h | h <;> subst h <;> rfl
        · exact hall ev h

/-- The selected polling routine makes polling calls only. -/
theorem poll_events (env : Env) (flags : Flags) (dev : Dev) (sy : Syncthing) (fuel : Nat)
    (w : World) :
    ∃ T, (poll env flags dev sy fuel w).2.trace = w.trace ++ T ∧
      ∀ ev ∈ T, Event.isPolling ev = true := by
  cases hw : flags.watch with
  | true =>
    obtain ⟨T, hT, hall⟩ := watchLoop_events env dev sy fuel
      ⟨w.trace ++ [Event.NewSpinner "Synchronizing your files...", Event.SpinnerStart],
        w.queries⟩
    simp only [poll, hw, if_true, runWithWatch_eq]
    cases hl : watchLoop env dev sy fuel
        ⟨w.trace ++ [Event.NewSpinner "Synchronizing your files...", Event.SpinnerStart],
          w.queries⟩ with
    | running w1 =>
      rw [hl] at hT
      refine ⟨[Event.NewSpinner "Synchronizing your files...", Event.SpinnerStart] ++ T, ?_, ?_⟩
      · simpa [LoopState.world, List.append_assoc] using hT
      · intro ev hev
        rcases List.mem_append.1 hev with h | h
        · simp only [List.mem_cons, List.mem_singleton, List.not_mem_nil, or_false] at h
          rcases h with h | h <;> subst h <;> rfl
        · exact hall ev h
    | returned e w1 =>
      rw [hl] at hT
      refine ⟨[Event.NewSpinner "Synchronizing your files...", Event.SpinnerStart] ++ T ++
        [Event.SpinnerStop], ?_, ?_⟩
      · have : w1.trace = w.trace ++
            [Event.NewSpinner "Synchronizing your files...", Event.SpinnerStart] ++ T := by
          simpa [LoopState.world] using hT
        simp [this, List.append_assoc]
      · intro ev hev
        rcases List.mem_append.1 hev with h | h
        · rcases List.mem_append.1 h with h | h
          · simp only [List.mem_cons, List.mem_singleton, List.not_mem_nil, or_false] at h
            rcases h with h | h <;> subst h <;> rfl
          · exact hall ev h
        · simp only [List.mem_singleton] at h
          subst h
          rfl
  | false =>
    simp only [poll, hw, Bool.false_eq_true, if_false]
    cases hq : env.StatusRun w.queries dev sy with
    | error e =>
      refine ⟨[Event.StatusRun dev sy], ?_, by simp [Event.isPolling]⟩
      simp [runWithoutWatch, statusRun, hq]
    | ok p =>
      by_cases hp : Float64.eq p Float64.hundred = true
      · refine ⟨[Event.StatusRun dev sy,
          Event.logSuccess "Synchronization status: %.2f%%" [.float p]], ?_,
          by simp [Event.isPolling]⟩
        simp [runWithoutWatch, statusRun, hq, hp, World.emit]
      · refine ⟨[Event.StatusRun dev sy,
          Event.logYellow "Synchronization status: %.2f%%" [.float p]], ?_,
          by simp [Event.isPolling]⟩
        simp [runWithoutWatch, statusRun, hq, hp, World.emit]

/-- Polling calls are neither telemetry nor session loads. -/
theorem count_polling (T : List Event) (h : ∀ ev ∈ T, Event.isPolling ev = true) :
    T.countP Event.isTrackStatus = 0 ∧ T.countP Event.isSyncthingLoad = 0 := by
  constructor <;>
  · rw [List.countP_eq_zero]
    intro ev hev
    have := h ev hev
    cases ev <;> simp_all [Event.isPolling, Event.isTrackStatus, Event.isSyncthingLoad]

/-- An iteration of the loop starts with a query of the Progress Source. -/
theorem watchLoop_starts_with_query (env : Env) (dev : Dev) (sy : Syncthing) (fuel : Nat)
    (w : World) :
    ∃ rest, (watchLoop env dev sy (fuel + 1) w).world.trace =
      w.trace ++ Event.StatusRun dev sy :: rest := by
  cases hq : env.StatusRun w.queries dev sy with
  | error e =>
    refine ⟨[], ?_⟩
    rw [watchLoop, watchStep_error env dev sy w e hq]
    rfl
  | ok p =>
    obtain ⟨T, hT, _⟩ := watchLoop_events env dev sy fuel
      ⟨w.trace ++ iterationEvents dev sy (watchMessage env p), w.queries + 1⟩
    refine ⟨[Event.SpinnerUpdate (watchMessage env p), Event.Sleep 2] ++ T, ?_⟩
    rw [watchLoop, watchStep_ok env dev sy w p hq]
    simpa [iterationEvents, List.append_assoc] using hT

/-- The calls of `runWithWatch` are those of its loop, followed by
`spinner.Stop()` once the loop has returned. -/
theorem runWithWatch_trace (env : Env) (dev : Dev) (sy : Syncthing) (fuel : Nat) (w : World) :
    ∃ tail, (runWithWatch env dev sy fuel w).2.trace =
      (watchLoop env dev sy fuel
        ⟨w.trace ++ [Event.NewSpinner "Synchronizing your files...", Event.SpinnerStart],
          w.queries⟩).world.trace ++ tail := by
  rw [runWithWatch_eq]
  cases watchLoop env dev sy fuel
      ⟨w.trace ++ [Event.NewSpinner "Synchronizing your files...", Event.SpinnerStart],
        w.queries⟩ with
  | running w1 => exact ⟨[], by simp [LoopState.world]⟩
  | returned e w1 => exact ⟨[Event.SpinnerStop], rfl⟩

/-- C4: the watch loop has no exit other than a failed query, and a failed
query is an exit.  If `runWithWatch` returns within `fuel` iterations, then some
query `n < fuel` failed with the returned error, every earlier query succeeded,
and no query was made after it; an iteration returns only if its own query
failed; an iteration whose query succeeds leaves the loop running; after a query
that returns exactly 100 the loop updates the spinner, sleeps 2 seconds, and the
next iteration starts with a new query; if no query ever fails, `runWithWatch`
has not returned after any number of iterations.  Conversely an iteration whose
query fails returns that error at once, and when the first `n` queries succeed
and the next one fails with `e`, `runWithWatch` does return `e` (given more than
`n` iterations of fuel), having made `n + 1` queries with `spinner.Stop()` as its
last call.  In a run of `runWithWatch` whose query number `ps.length` returns
exactly 100 after successful queries with the samples `ps`, the calls that
follow that query are the update to "Files synchronized", the sleep of 2
seconds and a new query. -/
theorem runWithWatch_exits_only_on_failure (env : Env) (dev : Dev) (sy : Syncthing)
    (w : World) :
    (∀ fuel r w', runWithWatch env dev sy fuel w = (.returned r, w') →
      ∃ n e, n < fuel ∧ r = some e ∧
        (∀ i, i < n → ∃ p, env.StatusRun (w.queries + i) dev sy = .ok p) ∧
        env.StatusRun (w.queries + n) dev sy = .error e ∧
        w'.queries = w.queries + n + 1) ∧
    (∀ e w', watchStep env dev sy w = .returned e w' →
      env.StatusRun w.queries dev sy = .error e) ∧
    (∀ p, env.StatusRun w.queries dev sy = .ok p →
      ∃ w1, watchStep env dev sy w = .running w1) ∧
    (env.StatusRun w.queries dev sy = .ok Float64.hundred →
      ∃ w1, watchStep env dev sy w = .running w1 ∧
        w1.trace = w.trace ++
          [Event.StatusRun dev sy, Event.SpinnerUpdate "Files synchronized", Event.Sleep 2] ∧
        ∃ rest, (watchStep env dev sy w1).world.trace =
          w1.trace ++ Event.StatusRun dev sy :: rest) ∧
    ((∀ k, ∃ p, env.StatusRun k dev sy = .ok p) →
      ∀ fuel, (runWithWatch env dev sy fuel w).1 = .running) ∧
    (∀ e, env.StatusRun w.queries dev sy = .error e →
      watchStep env dev sy w =
        .returned e ⟨w.trace ++ [Event.StatusRun dev sy], w.queries + 1⟩) ∧
    (∀ n e fuel, (∀ i, i < n → ∃ p, env.StatusRun (w.queries + i) dev sy = .ok p) →
      env.StatusRun (w.queries + n) dev sy = .error e → n < fuel →
      ∃ w', runWithWatch env dev sy fuel w = (.returned (some e), w') ∧
        w'.queries = w.queries + n + 1 ∧
        w'.trace.countP Event.isStatusRun = w.trace.countP Event.isStatusRun + (n + 1) ∧
        w'.trace.getLast? = some Event.SpinnerStop) ∧
    (∀ (ps : List Float64) (fuel : Nat),
      (∀ i (hi : i < ps.length),
        env.StatusRun (w.queries + i) dev sy = .ok (ps.get ⟨i, hi⟩)) →
      env.StatusRun (w.queries + ps.length) dev sy = .ok Float64.hundred →
      ∃ rest, (runWithWatch env dev sy (ps.length + (fuel + 2)) w).2.trace =
        w.trace ++ [Event.NewSpinner "Synchronizing your files...", Event.SpinnerStart] ++
          (ps.map (watchMessage env)).flatMap (fun m =>
            [Event.StatusRun dev sy, Event.SpinnerUpdate m, Event.Sleep 2]) ++
          [Event.StatusRun dev sy, Event.SpinnerUpdate "Files synchronized", Event.Sleep 2,
            Event.StatusRun dev sy] ++ rest) := by
  refine ⟨?_, ?_, ?_, ?_, ?_, ?_, ?_, ?_⟩
  · intro fuel r w' h
    rw [runWithWatch_eq] at h
    cases hl : watchLoop env dev sy fuel
        ⟨w.trace ++ [Event.NewSpinner "Synchronizing your files...", Event.SpinnerStart],
          w.queries⟩ with
    | running w1 => simp [hl] at h
    | returned e w1 =>
      simp only [hl, Prod.mk.injEq, Outcome.returned.injEq] at h
      obtain ⟨n, hn, hok, hfail, hw⟩ := watchLoop_returned env dev sy fuel _ w1 e hl
      refine ⟨n, e, hn, h.1.symm, hok, hfail, ?_⟩
      rw [← h.2]
      exact hw
  · intro e w' h
    exact (watchStep_returned env dev sy w w' e h).1
  · intro p h
    exact ⟨_, watchStep_ok env dev sy w p h⟩
  · intro h
    refine ⟨_, watchStep_ok env dev sy w Float64.hundred h, ?_, ?_⟩
    · simp [iterationEvents, watchMessage_eq]
    · cases hq : env.StatusRun (w.queries + 1) dev sy with
      | error e =>
        refine ⟨[], ?_⟩
        rw [watchStep_error env dev sy _ e hq]
        rfl
      | ok p =>
        refine ⟨[Event.SpinnerUpdate (watchMessage env p), Event.Sleep 2], ?_⟩
        rw [watchStep_ok env dev sy _ p hq]
        rfl
  · intro h fuel
    obtain ⟨w1, hw1⟩ := watchLoop_running env dev sy h fuel
      ⟨w.trace ++ [Event.NewSpinner "Synchronizing your files...", Event.SpinnerStart],
        w.queries⟩
    rw [runWithWatch_eq, hw1]
  · intro e h
    exact watchStep_error env dev sy w e h
  · intro n e fuel hok hfail hfuel
    obtain ⟨ps, hlen, hps⟩ := exists_samples env dev sy n w.queries hok
    subst hlen
    have hloop := watchLoop_first_error env dev sy ps
      ⟨w.trace ++ [Event.NewSpinner "Synchronizing your files...", Event.SpinnerStart],
        w.queries⟩ e fuel hps hfail hfuel
    obtain ⟨_, _, _, h4⟩ := count_iterations dev sy (ps.map (watchMessage env))
    rw [List.length_map] at h4
    refine ⟨_, by rw [runWithWatch_eq, hloop], rfl, ?_, ?_⟩
    · simp [List.countP_append, List.countP_cons, h4, Event.isStatusRun]
    · exact List.getLast?_concat _
  · intro ps fuel hps h100
    obtain ⟨tail, htail⟩ := runWithWatch_trace env dev sy (ps.length + (fuel + 2)) w
    have hpre := watchLoop_prefix env dev sy ps
      ⟨w.trace ++ [Event.NewSpinner "Synchronizing your files...", Event.SpinnerStart],
        w.queries⟩ hps (fuel + 2)
    have hstep := watchStep_ok env dev sy
      ⟨w.trace ++ [Event.NewSpinner "Synchronizing your files...", Event.SpinnerStart] ++
          (ps.map (watchMessage env)).flatMap (iterationEvents dev sy),
        w.queries + ps.length⟩ Float64.hundred h100
    obtain ⟨rest, hrest⟩ := watchLoop_starts_with_query env dev sy fuel
      ⟨w.trace ++ [Event.NewSpinner "Synchronizing your files...", Event.SpinnerStart] ++
          (ps.map (watchMessage env)).flatMap (iterationEvents dev sy) ++
          iterationEvents dev sy (watchMessage env Float64.hundred),
        w.queries + ps.length + 1⟩
    have hmsg : watchMessage env Float64.hundred = "Files synchronized" := by
      simp [watchMessage_eq]
    have hfun : (fun m => [Event.StatusRun dev sy, Event.SpinnerUpdate m, Event.Sleep 2]) =
        iterationEvents dev sy := rfl
    refine ⟨rest ++ tail, ?_⟩
    rw [htail, hpre, watchLoop, hstep, hrest, hfun]
    simp [iterationEvents, hmsg, List.append_assoc]

/-- C6: when the in-cluster check reports true, the command returns
`ErrNotInCluster` for every flag value, and the only calls it has made are the
start-up log entry and the in-cluster check itself: no manifest load, no local
context resolution, no session load, no query of the Progress Source. -/
theorem Status_rejects_in_cluster (env : Env) (flags : Flags) (fuel : Nat) (w : World)
    (hc : env.InCluster = true) :
    Status env flags fuel w =
        (.returned (some .ErrNotInCluster),
          ⟨w.trace ++ [Event.logInfo "starting status command", Event.InCluster],
            w.queries⟩) ∧
      ∀ ev ∈ [Event.logInfo "starting status command", Event.InCluster],
        ev ≠ Event.LoadDev flags.devPath ∧ ev ≠ Event.GetLocal ∧
          Event.isSyncthingLoad ev = false ∧ Event.isStatusRun ev = false := by
  refine ⟨Status_inCluster env flags fuel w hc, ?_⟩
  intro ev hev
  simp only [List.mem_cons, List.mem_singleton, List.not_mem_nil, or_false] at hev
  rcases hev with h | h <;> subst h <;> simp [Event.isSyncthingLoad, Event.isStatusRun]

/-- C7: take two runs whose earlier stages pass alike and whose session load
fails, with `u₁` in one and `u₂` in the other.  Both return `ErrNotInDevMode`;
their calls are the same except for the `log.Debugf` call, which carries the
underlying error; neither writes a line for the user and neither queries the
Progress Source. -/
theorem Status_hides_session_error (env₁ env₂ : Env) (flags : Flags) (fuel₁ fuel₂ : Nat)
    (w : World) (d0 d1 : Dev) (ns : String) (u₁ u₂ : GoError)
    (hc₁ : env₁.InCluster = false) (hc₂ : env₂.InCluster = false)
    (hl₁ : env₁.LoadDev flags.devPath = .ok d0) (hl₂ : env₂.LoadDev flags.devPath = .ok d0)
    (hu₁ : env₁.UpdateNamespace d0 flags.ns = .ok d1)
    (hu₂ : env₂.UpdateNamespace d0 flags.ns = .ok d1)
    (hg₁ : env₁.GetLocal = .ok ns) (hg₂ : env₂.GetLocal = .ok ns)
    (hs₁ : env₁.SyncthingLoad
      (if d1.Namespace = "" then { d1 with Namespace := ns } else d1) = .error u₁)
    (hs₂ : env₂.SyncthingLoad
      (if d1.Namespace = "" then { d1 with Namespace := ns } else d1) = .error u₂) :
    ∃ T₁ T₂,
      Status env₁ flags fuel₁ w =
        (.returned (some .ErrNotInDevMode), ⟨w.trace ++ T₁, w.queries⟩) ∧
      Status env₂ flags fuel₂ w =
        (.returned (some .ErrNotInDevMode), ⟨w.trace ++ T₂, w.queries⟩) ∧
      T₁.filter (fun ev => !ev.isDebugf) = T₂.filter (fun ev => !ev.isDebugf) ∧
      T₁.filter Event.isDebugf =
        [Event.logDebugf "error accessing to syncthing info file: %s" [.err u₁]] ∧
      T₂.filter Event.isDebugf =
        [Event.logDebugf "error accessing to syncthing info file: %s" [.err u₂]] ∧
      userOutput T₁ = [] ∧ userOutput T₂ = [] ∧
      T₁.countP Event.isStatusRun = 0 ∧ T₂.countP Event.isStatusRun = 0 := by
  refine ⟨stageEvents flags d0 (if d1.Namespace = "" then { d1 with Namespace := ns } else d1) ++
      [Event.logDebugf "error accessing to syncthing info file: %s" [.err u₁]],
    stageEvents flags d0 (if d1.Namespace = "" then { d1 with Namespace := ns } else d1) ++
      [Event.logDebugf "error accessing to syncthing info file: %s" [.err u₂]],
    ?_, ?_, ?_, ?_, ?_, ?_, ?_, ?_, ?_⟩
  · rw [Status_session_error env₁ flags fuel₁ w d0 d1 ns u₁ hc₁ hl₁ hu₁ hg₁ hs₁,
      List.append_assoc]
  · rw [Status_session_error env₂ flags fuel₂ w d0 d1 ns u₂ hc₂ hl₂ hu₂ hg₂ hs₂,
      List.append_assoc]
  all_goals simp [stageEvents, Event.isDebugf, Event.isStatusRun, userOutput, Event.line]

/-- Outside the polling stage the command returns an error without telemetry
and without a query. -/
theorem Status_early (env : Env) (flags : Flags) (fuel : Nat) (w : World)
    (hno : ¬ ∃ d0 dev sy, Preconditions env flags d0 dev sy) :
    ∃ e T, Status env flags fuel w = (.returned (some e), ⟨w.trace ++ T, w.queries⟩) ∧
      T.countP Event.isTrackStatus = 0 ∧ T.countP Event.isStatusRun = 0 := by
  rcases Status_cases env flags with hc | ⟨hc, e, hl⟩ | ⟨hc, d0, e, hl, hu⟩ |
    ⟨hc, d0, d1, e, hl, hu, hg⟩ | ⟨hc, d0, d1, ns, u, hl, hu, hg, hs⟩ | hp
  · exact ⟨_, _, Status_inCluster env flags fuel w hc, rfl, rfl⟩
  · exact ⟨_, _, Status_loadDev_error env flags fuel w e hc hl, rfl, rfl⟩
  · exact ⟨_, _, Status_updateNamespace_error env flags fuel w d0 e hc hl hu, rfl, rfl⟩
  · exact ⟨_, _, Status_getLocal_error env flags fuel w d0 d1 e hc hl hu hg, rfl, rfl⟩
  · refine ⟨.ErrNotInDevMode,
      stageEvents flags d0 (if d1.Namespace = "" then { d1 with Namespace := ns } else d1) ++
        [Event.logDebugf "error accessing to syncthing info file: %s" [.err u]], ?_, ?_, ?_⟩
    · rw [Status_session_error env flags fuel w d0 d1 ns u hc hl hu hg hs, List.append_assoc]
    · simp [stageEvents, Event.isTrackStatus]
    · simp [stageEvents, Event.isStatusRun]
  · exact absurd hp hno

/-- The calls before the polling routine hold no telemetry and no session
load other than the one of the stages. -/
theorem count_stages (flags : Flags) (d0 dev : Dev) (sy : Syncthing) :
    (stageEvents flags d0 dev ++ infoEvents flags.showInfo sy).countP Event.isTrackStatus = 0 ∧
      (infoEvents flags.showInfo sy).countP Event.isSyncthingLoad = 0 := by
  cases flags.showInfo <;>
    simp [stageEvents, infoEvents, Event.isTrackStatus, Event.isSyncthingLoad]

/-- C8 as stated fails: run inside the cluster, the command returns
`ErrNotInCluster` and has made no `analytics.TrackStatus` call. -/
theorem Status_in_cluster_tracks_nothing :
    (Status (sampleEnv true sampleSource) (sampleFlags false false) 0 World.init).1 =
        .returned (some .ErrNotInCluster) ∧
      (Status (sampleEnv true sampleSource) (sampleFlags false false) 0
        World.init).2.trace.countP Event.isTrackStatus = 0 := by
  decide

/-- C8, amended: when the command returns `r`, it has made exactly one
`analytics.TrackStatus` call if every stage before the polling routine succeeded,
and none otherwise.  In the first case the call is the last one, its arguments
are `r == nil` and the `--info` flag, and `r` is the error the selected polling
routine returned. -/
theorem Status_tracks_polling_outcome (env : Env) (flags : Flags) (fuel : Nat) (w w' : World)
    (r : Option GoError) (h : Status env flags fuel w = (.returned r, w')) :
    ∃ T, w'.trace = w.trace ++ T ∧
      ((∃ d0 dev sy, Preconditions env flags d0 dev sy) →
        T.countP Event.isTrackStatus = 1 ∧
        ∃ T0, T = T0 ++ [Event.TrackStatus r.isNone flags.showInfo] ∧
          T0.countP Event.isTrackStatus = 0 ∧
          ∃ d0 dev sy w2, Preconditions env flags d0 dev sy ∧
            poll env flags dev sy fuel (pollingWorld flags w d0 dev sy) = (.returned r, w2) ∧
            w2.trace = w.trace ++ T0) ∧
      ((¬ ∃ d0 dev sy, Preconditions env flags d0 dev sy) →
        T.countP Event.isTrackStatus = 0) := by
  by_cases hp : ∃ d0 dev sy, Preconditions env flags d0 dev sy
  · obtain ⟨d0, dev, sy, hpre⟩ := hp
    rw [Status_poll env flags fuel w d0 dev sy hpre] at h
    obtain ⟨Tp, hTp, hall⟩ := poll_events env flags dev sy fuel (pollingWorld flags w d0 dev sy)
    rcases hpoll : poll env flags dev sy fuel (pollingWorld flags w d0 dev sy) with ⟨o, w2⟩
    rw [hpoll] at h hTp
    cases o with
    | running => simp at h
    | returned err =>
      simp only [Prod.mk.injEq, Outcome.returned.injEq] at h
      obtain ⟨hr, hw⟩ := h
      subst hr
      have hw2 : w2.trace =
          w.trace ++ (stageEvents flags d0 dev ++ infoEvents flags.showInfo sy ++ Tp) := by
        simpa [pollingWorld, List.append_assoc] using hTp
      have hT0 : (stageEvents flags d0 dev ++ infoEvents flags.showInfo sy ++ Tp).countP
          Event.isTrackStatus = 0 := by
        rw [List.countP_append, (count_stages flags d0 dev sy).1, (count_polling Tp hall).1]
      refine ⟨stageEvents flags d0 dev ++ infoEvents flags.showInfo sy ++ Tp ++
        [Event.TrackStatus err.isNone flags.showInfo], ?_, ?_, ?_⟩
      · rw [← hw]
        simp only [hw2, List.append_assoc]
      · intro _
        refine ⟨?_, _, rfl, hT0, d0, dev, sy, w2, hpre, hpoll, hw2⟩
        rw [List.countP_append, hT0]
        simp [Event.isTrackStatus]
      · intro hno
        exact absurd ⟨d0, dev, sy, hpre⟩ hno
  · obtain ⟨e, T, hS, hT, _⟩ := Status_early env flags fuel w hp
    rw [hS] at h
    simp only [Prod.mk.injEq, Outcome.returned.injEq] at h
    refine ⟨T, ?_, fun hyes => absurd hyes hp, fun _ => hT⟩
    rw [← h.2]

/-- C9: the errors of the manifest load, of the namespace override, of the
local context resolution and of the selected polling routine are returned as they
are.  The stages run in this order and the command returns at the first failure
without calling a later stage, and it returns nil only if every stage succeeded
and the polling routine returned nil. -/
theorem Status_propagates_errors (env : Env) (flags : Flags) (fuel : Nat) (w : World) :
    (∀ e, env.InCluster = false → env.LoadDev flags.devPath = .error e →
      Status env flags fuel w =
        (.returned (some e),
          ⟨w.trace ++ [Event.logInfo "starting status command", Event.InCluster,
            Event.LoadDev flags.devPath], w.queries⟩)) ∧
    (∀ d0 e, env.InCluster = false → env.LoadDev flags.devPath = .ok d0 →
      env.UpdateNamespace d0 flags.ns = .error e →
      Status env flags fuel w =
        (.returned (some e),
          ⟨w.trace ++ [Event.logInfo "starting status command", Event.InCluster,
            Event.LoadDev flags.devPath, Event.UpdateNamespace d0 flags.ns], w.queries⟩)) ∧
    (∀ d0 d1 e, env.InCluster = false → env.LoadDev flags.devPath = .ok d0 →
      env.UpdateNamespace d0 flags.ns = .ok d1 → env.GetLocal = .error e →
      Status env flags fuel w =
        (.returned (some e),
          ⟨w.trace ++ [Event.logInfo "starting status command", Event.InCluster,
            Event.LoadDev flags.devPath, Event.UpdateNamespace d0 flags.ns, Event.GetLocal],
            w.queries⟩)) ∧
    (∀ d0 dev sy e w2, Preconditions env flags d0 dev sy →
      poll env flags dev sy fuel (pollingWorld flags w d0 dev sy) = (.returned (some e), w2) →
      (Status env flags fuel w).1 = .returned (some e)) ∧
    (∀ w', Status env flags fuel w = (.returned none, w') →
      ∃ d0 dev sy w2, Preconditions env flags d0 dev sy ∧
        poll env flags dev sy fuel (pollingWorld flags w d0 dev sy) = (.returned none, w2)) := by
  refine ⟨?_, ?_, ?_, ?_, ?_⟩
  · intro e hc hl
    exact Status_loadDev_error env flags fuel w e hc hl
  · intro d0 e hc hl hu
    exact Status_updateNamespace_error env flags fuel w d0 e hc hl hu
  · intro d0 d1 e hc hl hu hg
    exact Status_getLocal_error env flags fuel w d0 d1 e hc hl hu hg
  · intro d0 dev sy e w2 hpre hpoll
    rw [Status_poll env flags fuel w d0 dev sy hpre, hpoll]
  · intro w' h
    by_cases hp : ∃ d0 dev sy, Preconditions env flags d0 dev sy
    · obtain ⟨d0, dev, sy, hpre⟩ := hp
      rw [Status_poll env flags fuel w d0 dev sy hpre] at h
      rcases hpoll : poll env flags dev sy fuel (pollingWorld flags w d0 dev sy) with ⟨o, w2⟩
      rw [hpoll] at h
      cases o with
      | running => simp at h
      | returned err =>
        simp only [Prod.mk.injEq, Outcome.returned.injEq] at h
        obtain ⟨herr, _⟩ := h
        subst herr
        exact ⟨d0, dev, sy, w2, hpre, hpoll⟩
    · obtain ⟨e, T, hS, _, _⟩ := Status_early env flags fuel w hp
      rw [hS] at h
      simp at h

/-- C10 as stated fails: with a manifest whose namespace is `default` and the
local namespace `default`, the session is loaded with the local namespace
although the namespace of the manifest is not empty. -/
theorem Status_session_namespace_coincides :
    defaultNsEnv.InCluster = false ∧
      defaultNsEnv.LoadDev (sampleFlags false false).devPath = .ok defaultDev ∧
      defaultNsEnv.UpdateNamespace defaultDev (sampleFlags false false).ns = .ok defaultDev ∧
      defaultNsEnv.GetLocal = .ok "default" ∧
      (Status defaultNsEnv (sampleFlags false false) 0 World.init).2.trace.filter
          Event.isSyncthingLoad =
        [Event.SyncthingLoad ⟨"default", "name: web"⟩] ∧
      ¬ ((⟨"default", "name: web"⟩ : Dev).Namespace = "default" ↔ defaultDev.Namespace = "") :=
  ⟨rfl, rfl, rfl, rfl, by decide, by decide⟩

/-- C10, amended: once the manifest is loaded as `d0`, the override has turned
it into `d1` and the local namespace resolved to `ns`, the one session load of the
command is made for a manifest `dev` whose namespace is that of `d1` when that is
not empty, and `ns` when it is empty; the namespace of `dev` is `ns` exactly when
that of `d1` is empty or is `ns` itself; every other field of `dev` is that of
`d1`. -/
theorem Status_namespace_fallback (env : Env) (flags : Flags) (fuel : Nat) (w : World)
    (d0 d1 : Dev) (ns : String)
    (hc : env.InCluster = false) (hl : env.LoadDev flags.devPath = .ok d0)
    (hu : env.UpdateNamespace d0 flags.ns = .ok d1) (hg : env.GetLocal = .ok ns) :
    ∃ dev T,
      (Status env flags fuel w).2.trace =
        w.trace ++ [Event.logInfo "starting status command", Event.InCluster,
          Event.LoadDev flags.devPath, Event.UpdateNamespace d0 flags.ns, Event.GetLocal,
          Event.SyncthingLoad dev] ++ T ∧
      T.countP Event.isSyncthingLoad = 0 ∧
      (d1.Namespace ≠ "" → dev.Namespace = d1.Namespace) ∧
      (d1.Namespace = "" → dev.Namespace = ns) ∧
      (dev.Namespace = ns ↔ d1.Namespace = "" ∨ d1.Namespace = ns) ∧
      dev.others = d1.others := by
  have hns : ∀ dev : Dev, dev = (if d1.Namespace = "" then { d1 with Namespace := ns } else d1) →
      (d1.Namespace ≠ "" → dev.Namespace = d1.Namespace) ∧
      (d1.Namespace = "" → dev.Namespace = ns) ∧
      (dev.Namespace = ns ↔ d1.Namespace = "" ∨ d1.Namespace = ns) ∧
      dev.others = d1.others := by
    intro dev hdev
    by_cases hempty : d1.Namespace = ""
    · rw [if_pos hempty] at hdev
      subst hdev
      exact ⟨fun h => absurd hempty h, fun _ => rfl, ⟨fun _ => Or.inl hempty, fun _ => rfl⟩, rfl⟩
    · rw [if_neg hempty] at hdev
      subst hdev
      exact ⟨fun _ => rfl, fun h => absurd h hempty,
        ⟨fun h => Or.inr h, fun h => h.elim (fun h' => absurd h' hempty) id⟩, rfl⟩
  cases hs : env.SyncthingLoad
      (if d1.Namespace = "" then { d1 with Namespace := ns } else d1) with
  | error u =>
    refine ⟨_, [Event.logDebugf "error accessing to syncthing info file: %s" [.err u]], ?_,
      rfl, hns _ rfl⟩
    rw [Status_session_error env flags fuel w d0 d1 ns u hc hl hu hg hs]
    rfl
  | ok sy =>
    have hpre : Preconditions env flags d0
        (if d1.Namespace = "" then { d1 with Namespace := ns } else d1) sy :=
      ⟨hc, hl, d1, ns, hu, hg, rfl, hs⟩
    obtain ⟨Tp, hTp, hall⟩ := poll_events env flags _ sy fuel
      (pollingWorld flags w d0 (if d1.Namespace = "" then { d1 with Namespace := ns } else d1) sy)
    rw [Status_poll env flags fuel w d0 _ sy hpre]
    rcases hpoll : poll env flags
        (if d1.Namespace = "" then { d1 with Namespace := ns } else d1) sy fuel
        (pollingWorld flags w d0
          (if d1.Namespace = "" then { d1 with Namespace := ns } else d1) sy) with ⟨o, w2⟩
    rw [hpoll] at hTp
    have hw2 : w2.trace = w.trace ++
        stageEvents flags d0 (if d1.Namespace = "" then { d1 with Namespace := ns } else d1) ++
        (infoEvents flags.showInfo sy ++ Tp) := by
      simpa [pollingWorld, List.append_assoc] using hTp
    have hcount : (infoEvents flags.showInfo sy ++ Tp).countP Event.isSyncthingLoad = 0 := by
      rw [List.countP_append, (count_stages flags d0 d1 sy).2, (count_polling Tp hall).2]
    cases o with
    | running =>
      exact ⟨_, infoEvents flags.showInfo sy ++ Tp, hw2, hcount, hns _ rfl⟩
    | returned err =>
      refine ⟨_, infoEvents flags.showInfo sy ++ Tp ++
        [Event.TrackStatus err.isNone flags.showInfo], ?_, ?_, hns _ rfl⟩
      · show w2.trace ++ _ = _
        rw [hw2]
        simp only [stageEvents, List.append_assoc]
      · rw [List.countP_append, hcount]
        simp [Event.isSyncthingLoad]

/-! ## The theorems at sample inputs -/

/-- One-shot runs on the samples 100, 42.5, 99.99 and NaN: the line written,
its style, and the telemetry call. -/
theorem Status_one_shot_samples :
    Status (sampleEnv false (fun _ => .ok Float64.hundred)) (sampleFlags false false) 0
        World.init =
      (.returned none,
        ⟨stageEvents (sampleFlags false false) sampleDev ⟨"default", "name: web"⟩ ++
          [Event.StatusRun ⟨"default", "name: web"⟩ sampleSession,
            Event.logSuccess "Synchronization status: %.2f%%" [.float Float64.hundred],
            Event.TrackStatus true false], 1⟩) ∧
    userOutput (Status (sampleEnv false (fun _ => .ok Float64.hundred))
        (sampleFlags false false) 0 World.init).2.trace =
      [⟨.success, "Synchronization status: 100.00%"⟩] ∧
    userOutput (Status (sampleEnv false (fun _ => .ok Float64.fortyTwoHalf))
        (sampleFlags false false) 0 World.init).2.trace =
      [⟨.warning, "Synchronization status: 42.50%"⟩] ∧
    userOutput (Status (sampleEnv false (fun _ => .ok Float64.ninetyNine99))
        (sampleFlags false false) 0 World.init).2.trace =
      [⟨.warning, "Synchronization status: 99.99%"⟩] ∧
    userOutput (Status (sampleEnv false (fun _ => .ok Float64.nan))
        (sampleFlags false false) 0 World.init).2.trace =
      [⟨.warning, "Synchronization status: NaN%"⟩] := by
  decide

/-- C1 at the sample 100. -/
theorem runWithoutWatch_reports_witness :
    (sampleEnv false sampleSource).StatusRun World.init.queries sampleDev sampleSession =
        .ok Float64.hundred ∧
      ∃ ev style,
        runWithoutWatch (sampleEnv false sampleSource) sampleDev sampleSession World.init =
          (none, ⟨World.init.trace ++ [Event.StatusRun sampleDev sampleSession, ev],
            World.init.queries + 1⟩) ∧
        ev.isStatusRun = false ∧
        userOutput [Event.StatusRun sampleDev sampleSession, ev] =
          [⟨style, "Synchronization status: " ++ String.mk (formatFloat2 Float64.hundred) ++
            "%"⟩] ∧
        (style = Style.success ↔ Float64.hundred = Float64.hundred) ∧
        (Float64.hundred ≠ Float64.hundred → style = Style.warning) ∧
        (Float64.le Float64.zero Float64.hundred = true →
          Float64.lt Float64.hundred Float64.hundred = true → style = Style.warning) ∧
        (Float64.hundred.isNaN = false → Float64.hundred.isInf = false →
          ∃ whole d1 d2, formatFloat2 Float64.hundred = whole ++ ['.', d1, d2] ∧
            d1.isDigit = true ∧ d2.isDigit = true ∧ '.' ∉ whole) :=
  ⟨rfl, runWithoutWatch_reports (sampleEnv false sampleSource) sampleDev sampleSession
    World.init Float64.hundred rfl⟩

/-- C2 at a Progress Source that refuses the connection. -/
theorem runWithoutWatch_propagates_witness :
    (sampleEnv false (fun _ => .error sampleError)).StatusRun World.init.queries sampleDev
        sampleSession = .error sampleError ∧
      runWithoutWatch (sampleEnv false (fun _ => .error sampleError)) sampleDev sampleSession
          World.init =
        (some sampleError, ⟨[Event.StatusRun sampleDev sampleSession], 1⟩) ∧
      userOutput [Event.StatusRun sampleDev sampleSession] = [] :=
  ⟨rfl, runWithoutWatch_propagates (sampleEnv false (fun _ => .error sampleError)) sampleDev
    sampleSession World.init sampleError rfl⟩

/-- C3 at the source that answers 100, then 99.99, then fails. -/
theorem runWithWatch_stops_spinner_on_error_witness :
    (∀ i, i < 2 → ∃ p, (sampleEnv false sampleSource).StatusRun (World.init.queries + i)
        sampleDev sampleSession = .ok p) ∧
      (sampleEnv false sampleSource).StatusRun (World.init.queries + 2) sampleDev
        sampleSession = .error sampleError ∧
      2 < 5 ∧
      ∃ (msgs : List String) (T : List Event),
        msgs.length = 2 ∧
        T = [Event.NewSpinner "Synchronizing your files...", Event.SpinnerStart] ++
              msgs.flatMap (fun m =>
                [Event.StatusRun sampleDev sampleSession, Event.SpinnerUpdate m,
                  Event.Sleep 2]) ++
              [Event.StatusRun sampleDev sampleSession, Event.SpinnerStop] ∧
        runWithWatch (sampleEnv false sampleSource) sampleDev sampleSession 5 World.init =
          (.returned (some sampleError),
            ⟨World.init.trace ++ T, World.init.queries + 2 + 1⟩) ∧
        T.count Event.SpinnerStart = 1 ∧
        T.countP Event.isSpinnerUpdate = 2 ∧
        T.count Event.SpinnerStop = 1 ∧
        T.getLast? = some Event.SpinnerStop ∧
        T.countP Event.isStatusRun = 2 + 1 :=
  have hok : ∀ i, i < 2 → ∃ p, (sampleEnv false sampleSource).StatusRun
      (World.init.queries + i) sampleDev sampleSession = .ok p := fun i hi =>
    match i, hi with
    | 0, _ => ⟨Float64.hundred, rfl⟩
    | 1, _ => ⟨Float64.ninetyNine99, rfl⟩
    | n + 2, h => absurd h (by omega)
  ⟨hok, rfl, by decide,
    runWithWatch_stops_spinner_on_error (sampleEnv false sampleSource) sampleDev
      sampleSession World.init 2 sampleError 5 hok rfl (by decide)⟩

/-- C4 at the source that answers 100, then 99.99, then fails: the run
returns the error at the third query and its first query, which returns 100, is
followed by the update, the sleep and a new query; and at a source that always
answers 100: the loop goes on after the first answer, and `runWithWatch` is
still running after 50 iterations. -/
theorem runWithWatch_exits_only_on_failure_witness :
    (∀ i, i < 2 → ∃ p, (sampleEnv false sampleSource).StatusRun (World.init.queries + i)
        sampleDev sampleSession = .ok p) ∧
      (sampleEnv false sampleSource).StatusRun (World.init.queries + 2) sampleDev
        sampleSession = .error sampleError ∧
      2 < 3 ∧
      (∃ w', runWithWatch (sampleEnv false sampleSource) sampleDev sampleSession 3
          World.init = (.returned (some sampleError), w') ∧
        w'.queries = World.init.queries + 2 + 1 ∧
        w'.trace.countP Event.isStatusRun =
          World.init.trace.countP Event.isStatusRun + (2 + 1) ∧
        w'.trace.getLast? = some Event.SpinnerStop) ∧
      (∀ i (hi : i < ([] : List Float64).length),
        (sampleEnv false sampleSource).StatusRun (World.init.queries + i) sampleDev
          sampleSession = .ok (([] : List Float64).get ⟨i, hi⟩)) ∧
      (sampleEnv false sampleSource).StatusRun
        (World.init.queries + ([] : List Float64).length) sampleDev sampleSession =
          .ok Float64.hundred ∧
      (∃ rest, (runWithWatch (sampleEnv false sampleSource) sampleDev sampleSession
          (([] : List Float64).length + (1 + 2)) World.init).2.trace =
        World.init.trace ++
          [Event.NewSpinner "Synchronizing your files...", Event.SpinnerStart] ++
          (([] : List Float64).map (watchMessage (sampleEnv false sampleSource))).flatMap
            (fun m =>
              [Event.StatusRun sampleDev sampleSession, Event.SpinnerUpdate m,
                Event.Sleep 2]) ++
          [Event.StatusRun sampleDev sampleSession, Event.SpinnerUpdate "Files synchronized",
            Event.Sleep 2, Event.StatusRun sampleDev sampleSession] ++ rest) ∧
      (sampleEnv false (fun _ => .ok Float64.hundred)).StatusRun World.init.queries sampleDev
        sampleSession = .ok Float64.hundred ∧
      (∀ k, ∃ p, (sampleEnv false (fun _ => .ok Float64.hundred)).StatusRun k sampleDev
        sampleSession = .ok p) ∧
      (∃ w1, watchStep (sampleEnv false (fun _ => .ok Float64.hundred)) sampleDev
          sampleSession World.init = .running w1 ∧
        w1.trace = World.init.trace ++
          [Event.StatusRun sampleDev sampleSession,
            Event.SpinnerUpdate "Files synchronized", Event.Sleep 2] ∧
        ∃ rest, (watchStep (sampleEnv false (fun _ => .ok Float64.hundred)) sampleDev
            sampleSession w1).world.trace =
          w1.trace ++ Event.StatusRun sampleDev sampleSession :: rest) ∧
      (runWithWatch (sampleEnv false (fun _ => .ok Float64.hundred)) sampleDev sampleSession
        50 World.init).1 = .running :=
  have hok : ∀ i, i < 2 → ∃ p, (sampleEnv false sampleSource).StatusRun
      (World.init.queries + i) sampleDev sampleSession = .ok p := fun i hi =>
    match i, hi with
    | 0, _ => ⟨Float64.hundred, rfl⟩
    | 1, _ => ⟨Float64.ninetyNine99, rfl⟩
    | n + 2, h => absurd h (by omega)
  have hnil : ∀ i (hi : i < ([] : List Float64).length),
      (sampleEnv false sampleSource).StatusRun (World.init.queries + i) sampleDev
        sampleSession = .ok (([] : List Float64).get ⟨i, hi⟩) := fun i hi =>
    absurd hi (Nat.not_lt_zero i)
  ⟨hok, rfl, by decide,
    (runWithWatch_exits_only_on_failure (sampleEnv false sampleSource) sampleDev sampleSession
      World.init).2.2.2.2.2.2.1 2 sampleError 3 hok rfl (by decide),
    hnil, rfl,
    (runWithWatch_exits_only_on_failure (sampleEnv false sampleSource) sampleDev sampleSession
      World.init).2.2.2.2.2.2.2 [] 1 hnil rfl,
    rfl, fun _ => ⟨Float64.hundred, rfl⟩,
    (runWithWatch_exits_only_on_failure (sampleEnv false (fun _ => .ok Float64.hundred))
      sampleDev sampleSession World.init).2.2.2.1 rfl,
    (runWithWatch_exits_only_on_failure (sampleEnv false (fun _ => .ok Float64.hundred))
      sampleDev sampleSession World.init).2.2.2.2.1 (fun _ => ⟨Float64.hundred, rfl⟩) 50⟩

/-- C5 at the samples 100 then 99.99: the completion label, then the bar again. -/
theorem watchLoop_update_messages_witness :
    (∀ i (hi : i < [Float64.hundred, Float64.ninetyNine99].length),
      (sampleEnv false sampleSource).StatusRun (World.init.queries + i) sampleDev
        sampleSession = .ok ([Float64.hundred, Float64.ninetyNine99].get ⟨i, hi⟩)) ∧
      watchLoop (sampleEnv false sampleSource) sampleDev sampleSession 2 World.init =
        .running
          ⟨[Event.StatusRun sampleDev sampleSession, Event.SpinnerUpdate "Files synchronized",
              Event.Sleep 2,
            Event.StatusRun sampleDev sampleSession,
              Event.SpinnerUpdate
                ((sampleEnv false sampleSource).renderProgressBar "Synchronizing your files..."
                  Float64.ninetyNine99 Float64.threeTenths),
              Event.Sleep 2], 2⟩ ∧
      runWithWatch (sampleEnv false sampleSource) sampleDev sampleSession 3 World.init =
        (.returned (some sampleError),
          ⟨[Event.NewSpinner "Synchronizing your files...", Event.SpinnerStart,
            Event.StatusRun sampleDev sampleSession, Event.SpinnerUpdate "Files synchronized",
              Event.Sleep 2,
            Event.StatusRun sampleDev sampleSession,
              Event.SpinnerUpdate
                ((sampleEnv false sampleSource).renderProgressBar "Synchronizing your files..."
                  Float64.ninetyNine99 Float64.threeTenths),
              Event.Sleep 2,
            Event.StatusRun sampleDev sampleSession, Event.SpinnerStop], 3⟩) :=
  have hps : ∀ i (hi : i < [Float64.hundred, Float64.ninetyNine99].length),
      (sampleEnv false sampleSource).StatusRun (World.init.queries + i) sampleDev
        sampleSession = .ok ([Float64.hundred, Float64.ninetyNine99].get ⟨i, hi⟩) := fun i hi =>
    match i, hi with
    | 0, _ => rfl
    | 1, _ => rfl
    | n + 2, h => absurd h (by simp)
  ⟨hps,
    (watchLoop_update_messages (sampleEnv false sampleSource) sampleDev sampleSession
      World.init [Float64.hundred, Float64.ninetyNine99] hps).1,
    (watchLoop_update_messages (sampleEnv false sampleSource) sampleDev sampleSession
      World.init [Float64.hundred, Float64.ninetyNine99] hps).2 sampleError 3 rfl (by decide)⟩

/-- C6 inside the cluster, in watch mode with `--info`. -/
theorem Status_rejects_in_cluster_witness :
    (sampleEnv true sampleSource).InCluster = true ∧
      Status (sampleEnv true sampleSource) (sampleFlags true true) 9 World.init =
        (.returned (some .ErrNotInCluster),
          ⟨[Event.logInfo "starting status command", Event.InCluster], 0⟩) :=
  ⟨rfl, (Status_rejects_in_cluster (sampleEnv true sampleSource) (sampleFlags true true) 9
    World.init rfl).1⟩

/-- C7 at two runs whose session load fails, once with a missing file and
once with a permission error. -/
theorem Status_hides_session_error_witness :
    ∃ T₁ T₂,
      Status (noSessionEnv (.other "no such file")) (sampleFlags false false) 0 World.init =
        (.returned (some .ErrNotInDevMode), ⟨World.init.trace ++ T₁, World.init.queries⟩) ∧
      Status (noSessionEnv (.other "permission denied")) (sampleFlags false false) 0
          World.init =
        (.returned (some .ErrNotInDevMode), ⟨World.init.trace ++ T₂, World.init.queries⟩) ∧
      T₁.filter (fun ev => !ev.isDebugf) = T₂.filter (fun ev => !ev.isDebugf) ∧
      T₁.filter Event.isDebugf =
        [Event.logDebugf "error accessing to syncthing info file: %s"
          [.err (.other "no such file")]] ∧
      T₂.filter Event.isDebugf =
        [Event.logDebugf "error accessing to syncthing info file: %s"
          [.err (.other "permission denied")]] ∧
      userOutput T₁ = [] ∧ userOutput T₂ = [] ∧
      T₁.countP Event.isStatusRun = 0 ∧ T₂.countP Event.isStatusRun = 0 :=
  Status_hides_session_error (noSessionEnv (.other "no such file"))
    (noSessionEnv (.other "permission denied")) (sampleFlags false false) 0 0 World.init
    sampleDev sampleDev "default" (.other "no such file") (.other "permission denied")
    rfl rfl rfl rfl rfl rfl rfl rfl rfl rfl

/-- The stages of `sampleEnv` outside the cluster all succeed. -/
theorem sampleEnv_preconditions (source : Nat → Except GoError Float64)
    (showInfo watch : Bool) :
    Preconditions (sampleEnv false source) (sampleFlags showInfo watch) sampleDev
      ⟨"default", "name: web"⟩ sampleSession :=
  ⟨rfl, rfl, sampleDev, "default", rfl, rfl, rfl, rfl⟩

/-- C8, amended, at a one-shot run on the sample 100 with `--info`. -/
theorem Status_tracks_polling_outcome_witness :
    Status (sampleEnv false sampleSource) (sampleFlags true false) 0 World.init =
        (.returned none,
          ⟨stageEvents (sampleFlags true false) sampleDev ⟨"default", "name: web"⟩ ++
            infoEvents true sampleSession ++
            [Event.StatusRun ⟨"default", "name: web"⟩ sampleSession,
              Event.logSuccess "Synchronization status: %.2f%%" [.float Float64.hundred],
              Event.TrackStatus true true], 1⟩) ∧
      ∃ T,
        (stageEvents (sampleFlags true false) sampleDev ⟨"default", "name: web"⟩ ++
            infoEvents true sampleSession ++
            [Event.StatusRun ⟨"default", "name: web"⟩ sampleSession,
              Event.logSuccess "Synchronization status: %.2f%%" [.float Float64.hundred],
              Event.TrackStatus true true]) = World.init.trace ++ T ∧
        ((∃ d0 dev sy, Preconditions (sampleEnv false sampleSource) (sampleFlags true false)
            d0 dev sy) →
          T.countP Event.isTrackStatus = 1 ∧
          ∃ T0, T = T0 ++ [Event.TrackStatus (none : Option GoError).isNone
              (sampleFlags true false).showInfo] ∧
            T0.countP Event.isTrackStatus = 0 ∧
            ∃ d0 dev sy w2,
              Preconditions (sampleEnv false sampleSource) (sampleFlags true false) d0 dev sy ∧
              poll (sampleEnv false sampleSource) (sampleFlags true false) dev sy 0
                (pollingWorld (sampleFlags true false) World.init d0 dev sy) =
                  (.returned none, w2) ∧
              w2.trace = World.init.trace ++ T0) ∧
        ((¬ ∃ d0 dev sy, Preconditions (sampleEnv false sampleSource) (sampleFlags true false)
            d0 dev sy) →
          T.countP Event.isTrackStatus = 0) :=
  have hrun : Status (sampleEnv false sampleSource) (sampleFlags true false) 0 World.init =
      (.returned none,
        ⟨stageEvents (sampleFlags true false) sampleDev ⟨"default", "name: web"⟩ ++
          infoEvents true sampleSession ++
          [Event.StatusRun ⟨"default", "name: web"⟩ sampleSession,
            Event.logSuccess "Synchronization status: %.2f%%" [.float Float64.hundred],
            Event.TrackStatus true true], 1⟩) := by decide
  ⟨hrun, Status_tracks_polling_outcome (sampleEnv false sampleSource) (sampleFlags true false)
    0 World.init _ none hrun⟩

/-- C9 at a manifest that does not load and at a watch run whose third query
fails. -/
theorem Status_propagates_errors_witness :
    noManifestEnv.InCluster = false ∧
      noManifestEnv.LoadDev (sampleFlags false false).devPath = .error sampleError ∧
      Status noManifestEnv (sampleFlags false false) 0 World.init =
        (.returned (some sampleError),
          ⟨[Event.logInfo "starting status command", Event.InCluster,
            Event.LoadDev "okteto.yml"], 0⟩) ∧
      poll (sampleEnv false sampleSource) (sampleFlags false true) ⟨"default", "name: web"⟩
          sampleSession 3
          (pollingWorld (sampleFlags false true) World.init sampleDev
            ⟨"default", "name: web"⟩ sampleSession) =
        (.returned (some sampleError),
          ⟨stageEvents (sampleFlags false true) sampleDev ⟨"default", "name: web"⟩ ++
            [Event.NewSpinner "Synchronizing your files...", Event.SpinnerStart,
              Event.StatusRun ⟨"default", "name: web"⟩ sampleSession,
              Event.SpinnerUpdate "Files synchronized", Event.Sleep 2,
              Event.StatusRun ⟨"default", "name: web"⟩ sampleSession,
              Event.SpinnerUpdate "Synchronizing your files...", Event.Sleep 2,
              Event.StatusRun ⟨"default", "name: web"⟩ sampleSession,
              Event.SpinnerStop], 3⟩) ∧
      (Status (sampleEnv false sampleSource) (sampleFlags false true) 3 World.init).1 =
        .returned (some sampleError) :=
  have hpoll : poll (sampleEnv false sampleSource) (sampleFlags false true)
      ⟨"default", "name: web"⟩ sampleSession 3
      (pollingWorld (sampleFlags false true) World.init sampleDev
        ⟨"default", "name: web"⟩ sampleSession) =
      (.returned (some sampleError),
        ⟨stageEvents (sampleFlags false true) sampleDev ⟨"default", "name: web"⟩ ++
          [Event.NewSpinner "Synchronizing your files...", Event.SpinnerStart,
            Event.StatusRun ⟨"default", "name: web"⟩ sampleSession,
            Event.SpinnerUpdate "Files synchronized", Event.Sleep 2,
            Event.StatusRun ⟨"default", "name: web"⟩ sampleSession,
            Event.SpinnerUpdate "Synchronizing your files...", Event.Sleep 2,
            Event.StatusRun ⟨"default", "name: web"⟩ sampleSession,
            Event.SpinnerStop], 3⟩) := by decide
  ⟨rfl, rfl,
    (Status_propagates_errors noManifestEnv (sampleFlags false false) 0 World.init).1
      sampleError rfl rfl,
    hpoll,
    (Status_propagates_errors (sampleEnv false sampleSource) (sampleFlags false true) 3
      World.init).2.2.2.1 sampleDev ⟨"default", "name: web"⟩ sampleSession sampleError _
      (sampleEnv_preconditions sampleSource false true) hpoll⟩

/-- C10, amended, at a manifest without a namespace: the session is loaded for
the local namespace `default`. -/
theorem Status_namespace_fallback_witness :
    (sampleEnv false sampleSource).InCluster = false ∧
      (sampleEnv false sampleSource).LoadDev (sampleFlags false false).devPath =
        .ok sampleDev ∧
      (sampleEnv false sampleSource).UpdateNamespace sampleDev (sampleFlags false false).ns =
        .ok sampleDev ∧
      (sampleEnv false sampleSource).GetLocal = .ok "default" ∧
      ∃ dev T,
        (Status (sampleEnv false sampleSource) (sampleFlags false false) 0
            World.init).2.trace =
          World.init.trace ++ [Event.logInfo "starting status command", Event.InCluster,
            Event.LoadDev (sampleFlags false false).devPath,
            Event.UpdateNamespace sampleDev (sampleFlags false false).ns, Event.GetLocal,
            Event.SyncthingLoad dev] ++ T ∧
        T.countP Event.isSyncthingLoad = 0 ∧
        (sampleDev.Namespace ≠ "" → dev.Namespace = sampleDev.Namespace) ∧
        (sampleDev.Namespace = "" → dev.Namespace = "default") ∧
        (dev.Namespace = "default" ↔
          sampleDev.Namespace = "" ∨ sampleDev.Namespace = "default") ∧
        dev.others = sampleDev.others :=
  ⟨rfl, rfl, rfl, rfl,
    Status_namespace_fallback (sampleEnv false sampleSource) (sampleFlags false false) 0
      World.init sampleDev sampleDev "default" rfl rfl rfl rfl⟩

/-- The session loads of two sample runs: the local namespace for a manifest
without a namespace, the namespace of the manifest otherwise. -/
theorem Status_session_load_samples :
    (Status (sampleEnv false sampleSource) (sampleFlags false false) 0
        World.init).2.trace.filter Event.isSyncthingLoad =
      [Event.SyncthingLoad ⟨"default", "name: web"⟩] ∧
    (Status stagingEnv (sampleFlags false false) 0 World.init).2.trace.filter
        Event.isSyncthingLoad =
      [Event.SyncthingLoad ⟨"staging", "name: web"⟩] := by
  decide

end Okteto
